import Mathlib

/-!
Verification development for the career-coaching backend
(src/llm_client.py, src/orchestrator.py, src/database.py, src/agents/).

Modelling conventions:
* Python dict/list/str/number values are modelled by the inductive `Json`;
  JSON numbers are modelled as rationals (the repository only manipulates
  integer-valued numbers in the code paths treated here).
* Fallible Python code (code that can raise) returns `Except PyErr _`;
  code that catches all exceptions turns an `Except` into a total function.
* `json.loads` is modelled by `Json.parse` below, a recursive-descent
  parser following Python's strict JSON grammar (code fences, escapes,
  leading-zero rejection, whole-input consumption).  The `NaN`/`Infinity`
  literals accepted by Python's default parser are not modelled; no claim
  involves them.
-/

inductive PyErr where
  | valueError
  | typeError
  | attributeError
  | keyError
  | indexError
deriving Repr, DecidableEq

inductive Json where
  | null
  | bool (b : Bool)
  | num (q : ℚ)
  | str (s : String)
  | arr (elems : List Json)
  | obj (fields : List (String × Json))
deriving Repr

namespace Json

/-- Python truthiness (`if x:`) for the values a JSON parse can produce:
`None`, `False`, `0`, `""`, `[]` and `{}` are falsy. -/
def truthy : Json → Bool
  | .null => false
  | .bool b => b
  | .num q => decide (q ≠ 0)
  | .str s => decide (s ≠ "")
  | .arr elems => !elems.isEmpty
  | .obj fields => !fields.isEmpty

/-- Is this value a JSON object (a Python dict)? -/
def isObj : Json → Bool
  | .obj _ => true
  | _ => false

/-- Assoc-list lookup of a field, first occurrence. -/
def lookupField : List (String × Json) → String → Option Json
  | [], _ => none
  | (k, v) :: rest, key => if k = key then some v else lookupField rest key

/-- Python `dict.__setitem__` semantics on an assoc list: replace in place
if the key is present, append otherwise. -/
def dictInsert : List (String × Json) → String → Json → List (String × Json)
  | [], key, v => [(key, v)]
  | (k, w) :: rest, key, v =>
    if k = key then (k, v) :: rest else (k, w) :: dictInsert rest key v

/-- Python `d.get(key, default)`: only dicts have `.get`; any other value
raises `AttributeError`. -/
def getD (j : Json) (key : String) (dflt : Json) : Except PyErr Json :=
  match j with
  | .obj fields => .ok ((lookupField fields key).getD dflt)
  | _ => .error .attributeError

/-- Python `d[key]` on a dict (raises `KeyError` when absent, `TypeError`
on a non-container). -/
def item (j : Json) (key : String) : Except PyErr Json :=
  match j with
  | .obj fields =>
    match lookupField fields key with
    | some v => .ok v
    | none => .error .keyError
  | _ => .error .typeError

end Json

/-! ## Python string helpers -/

/-- The whitespace of Python `str.strip()` (ASCII part). -/
def pyWs (c : Char) : Bool :=
  c = ' ' || c = '\t' || c = '\n' || c = '\r' || c = '\x0b' || c = '\x0c'

def dropWhileRight (p : Char → Bool) (cs : List Char) : List Char :=
  (cs.reverse.dropWhile p).reverse

/-- Python `str.strip()`. -/
def pyStrip (s : String) : String :=
  String.mk (dropWhileRight pyWs (s.data.dropWhile pyWs))

/-- Python `str.rstrip()`. -/
def pyRstrip (s : String) : String :=
  String.mk (dropWhileRight pyWs s.data)

/-- Does `cs` start with `pre`? -/
def listStartsWith : List Char → List Char → Bool
  | [], _ => true
  | _ :: _, [] => false
  | p :: ps, c :: cs => p = c && listStartsWith ps cs

/-- All indices `i` of `s` at which the substring `sub` occurs. -/
def subOccurrences (sub s : List Char) : List Nat :=
  (List.range (s.length + 1)).filter (fun i => listStartsWith sub (s.drop i))

/-- Python `s.rfind(sub)`: index of the last occurrence, `-1` if none. -/
def pyRfind (s sub : String) : Int :=
  match (subOccurrences sub.data s.data).getLast? with
  | some i => (i : Int)
  | none => -1

/-- Python `sub in s` on strings: substring containment. -/
def strContainsSub (s sub : String) : Bool :=
  (subOccurrences sub.data s.data) ≠ []

/-- Python `str.split()` with no separator: split on whitespace runs,
discarding empty pieces. -/
def pySplit (s : String) : List String :=
  (s.split (fun c => pyWs c)).filter (fun t => t ≠ "")

/-- Python `str.isdigit` (ASCII digits). -/
def pyIsdigit (s : String) : Bool :=
  s ≠ "" && s.data.all Char.isDigit

/-- Contents of a decimal-digit string as a natural number. -/
def digitsToNat (cs : List Char) : Nat :=
  cs.foldl (fun acc c => acc * 10 + (c.toNat - 48)) 0

/-! ## Python numeric helpers -/

/-- Python `round` on a rational: round half to even (banker's rounding). -/
def pyRound (q : ℚ) : Int :=
  let f : Int := q.floor
  let r : ℚ := q - (f : ℚ)
  if r < 1/2 then f
  else if 1/2 < r then f + 1
  else if f % 2 = 0 then f else f + 1

/-- Python `int()` truncation toward zero of a rational. -/
def pyTruncQ (q : ℚ) : Int := q.num.tdiv q.den

/-- Python `int(x)` on a JSON value: numbers truncate toward zero, booleans
become 0/1, strings must be an optionally signed digit string (with
surrounding whitespace); everything else raises. -/
def pyInt (j : Json) : Except PyErr Int :=
  match j with
  | .num q => .ok (pyTruncQ q)
  | .bool b => .ok (if b then 1 else 0)
  | .str s =>
    let t := pyStrip s
    match t.data with
    | '-' :: ds => if ds ≠ [] && ds.all Char.isDigit then .ok (-(digitsToNat ds : Int)) else .error .valueError
    | '+' :: ds => if ds ≠ [] && ds.all Char.isDigit then .ok (digitsToNat ds : Int) else .error .valueError
    | ds => if ds ≠ [] && ds.all Char.isDigit then .ok (digitsToNat ds : Int) else .error .valueError
  | _ => .error .typeError

/-- Python `str(x)` restricted to the value shapes the modelled code feeds
it (strings pass through; integer-valued numbers print their decimal
digits; other shapes get a fixed rendering that no claim depends on). -/
def pyStrLite (j : Json) : String :=
  match j with
  | .str s => s
  | .num q => if q.den = 1 then toString q.num else toString q
  | .bool b => if b then "True" else "False"
  | .null => "None"
  | .arr _ => "[...]"
  | .obj _ => "{...}"

/-! ## `json.loads` model (src/llm_client.py uses Python's `json` module) -/

/-- JSON whitespace. -/
def jsonWs (c : Char) : Bool :=
  c = ' ' || c = '\t' || c = '\n' || c = '\r'

def skipWs : List Char → List Char
  | [] => []
  | c :: cs => if jsonWs c then skipWs cs else c :: cs

def hexVal (c : Char) : Option Nat :=
  if '0' ≤ c && c ≤ '9' then some (c.toNat - 48)
  else if 'a' ≤ c && c ≤ 'f' then some (c.toNat - 87)
  else if 'A' ≤ c && c ≤ 'F' then some (c.toNat - 55)
  else none

def escChar (c : Char) : Option Char :=
  if c = '"' then some '"'
  else if c = '\\' then some '\\'
  else if c = '/' then some '/'
  else if c = 'b' then some (Char.ofNat 8)
  else if c = 'f' then some (Char.ofNat 12)
  else if c = 'n' then some '\n'
  else if c = 'r' then some '\r'
  else if c = 't' then some '\t'
  else none

/-- Body of a JSON string literal after the opening quote: returns the
decoded characters and the remainder after the closing quote. -/
def parseStringChars : List Char → Option (List Char × List Char)
  | [] => none
  | '"' :: cs => some ([], cs)
  | '\\' :: 'u' :: h1 :: h2 :: h3 :: h4 :: cs => do
    let a ← hexVal h1
    let b ← hexVal h2
    let c ← hexVal h3
    let d ← hexVal h4
    let (chars, rest) ← parseStringChars cs
    some (Char.ofNat (a * 4096 + b * 256 + c * 16 + d) :: chars, rest)
  | '\\' :: e :: cs => do
    let ec ← escChar e
    let (chars, rest) ← parseStringChars cs
    some (ec :: chars, rest)
  | c :: cs =>
    if c.toNat < 32 then none
    else do
      let (chars, rest) ← parseStringChars cs
      some (c :: chars, rest)

/-- JSON number grammar: `-? (0 | [1-9][0-9]*) (. [0-9]+)? ([eE] [+-]? [0-9]+)?`. -/
def parseNumber (cs : List Char) : Option (ℚ × List Char) :=
  let (neg, cs1) :=
    match cs with
    | '-' :: rest => (true, rest)
    | _ => (false, cs)
  match cs1 with
  | [] => none
  | c :: _ =>
    if ¬ c.isDigit then none
    else
      let (intDs, cs2) :=
        if c = '0' then ([c], cs1.tail)
        else (cs1.takeWhile Char.isDigit, cs1.dropWhile Char.isDigit)
      let (fracDs, cs3) :=
        match cs2 with
        | '.' :: rest =>
          let ds := rest.takeWhile Char.isDigit
          if ds = [] then ([], cs2) else (ds, rest.dropWhile Char.isDigit)
        | _ => ([], cs2)
      let (expVal, cs4) : Option Int × List Char :=
        match cs3 with
        | e :: rest =>
          if e = 'e' || e = 'E' then
            let (esign, rest2) :=
              match rest with
              | '+' :: r => ((1 : Int), r)
              | '-' :: r => ((-1 : Int), r)
              | _ => ((1 : Int), rest)
            let ds := rest2.takeWhile Char.isDigit
            if ds = [] then (none, cs3)
            else (some (esign * (digitsToNat ds : Int)), rest2.dropWhile Char.isDigit)
          else (none, cs3)
        | [] => (none, cs3)
      let base : ℚ := (digitsToNat intDs : ℚ) +
        (digitsToNat fracDs : ℚ) / ((10 : ℚ) ^ fracDs.length)
      let scaled : ℚ :=
        match expVal with
        | some e => if e ≥ 0 then base * (10 : ℚ) ^ e.toNat else base / (10 : ℚ) ^ (-e).toNat
        | none => base
      some (if neg then -scaled else scaled, cs4)

/-- Later duplicate keys overwrite earlier ones, keeping the first position
(Python dict semantics). -/
def dedupFields (raw : List (String × Json)) : List (String × Json) :=
  raw.foldl (fun acc kv => Json.dictInsert acc kv.1 kv.2) []

mutual

def parseVal : Nat → List Char → Option (Json × List Char)
  | 0, _ => none
  | Nat.succ fuel, cs =>
    match skipWs cs with
    | [] => none
    | c :: rest =>
      if c = '{' then parseObjRest fuel rest
      else if c = '[' then parseArrRest fuel rest
      else if c = '"' then
        (parseStringChars rest).map (fun p => (Json.str (String.mk p.1), p.2))
      else if c = 't' then
        match rest with
        | 'r' :: 'u' :: 'e' :: r => some (Json.bool true, r)
        | _ => none
      else if c = 'f' then
        match rest with
        | 'a' :: 'l' :: 's' :: 'e' :: r => some (Json.bool false, r)
        | _ => none
      else if c = 'n' then
        match rest with
        | 'u' :: 'l' :: 'l' :: r => some (Json.null, r)
        | _ => none
      else
        (parseNumber (c :: rest)).map (fun p => (Json.num p.1, p.2))

def parseArrRest : Nat → List Char → Option (Json × List Char)
  | 0, _ => none
  | Nat.succ fuel, cs =>
    match skipWs cs with
    | ']' :: r => some (Json.arr [], r)
    | other => (parseArrItems fuel other).map (fun p => (Json.arr p.1, p.2))

def parseArrItems : Nat → List Char → Option (List Json × List Char)
  | 0, _ => none
  | Nat.succ fuel, cs => do
    let (v, cs1) ← parseVal fuel cs
    match skipWs cs1 with
    | ',' :: cs2 => do
      let (vs, cs3) ← parseArrItems fuel cs2
      some (v :: vs, cs3)
    | ']' :: cs2 => some ([v], cs2)
    | _ => none

def parseObjRest : Nat → List Char → Option (Json × List Char)
  | 0, _ => none
  | Nat.succ fuel, cs =>
    match skipWs cs with
    | '}' :: r => some (Json.obj [], r)
    | other => (parseObjItems fuel other).map (fun p => (Json.obj (dedupFields p.1), p.2))

def parseObjItems : Nat → List Char → Option (List (String × Json) × List Char)
  | 0, _ => none
  | Nat.succ fuel, cs =>
    match skipWs cs with
    | '"' :: r => do
      let (kChars, r1) ← parseStringChars r
      match skipWs r1 with
      | ':' :: r2 => do
        let (v, r3) ← parseVal fuel r2
        match skipWs r3 with
        | ',' :: r4 => do
          let (fs, r5) ← parseObjItems fuel r4
          some ((String.mk kChars, v) :: fs, r5)
        | '}' :: r4 => some ([(String.mk kChars, v)], r4)
        | _ => none
      | _ => none
    | _ => none

end

/-- Model of Python `json.loads`: parse one value and require only
whitespace after it; `none` models a raised `JSONDecodeError`. -/
def Json.parse (s : String) : Option Json :=
  match parseVal (s.length * 4 + 16) s.data with
  | some (v, rest) => if (skipWs rest).isEmpty then some v else none
  | none => none

/-! ## LLMClient (src/llm_client.py)

`call` / `chat` loop over `[self.model] + self.fallback_models`; one
completion request per candidate is modelled by a `Transport` function
from model name to outcome.  `call_json` strips code fences, then runs
the tiered JSON repair pipeline. -/

/-- Outcome of one completion request: `.error` models a raised exception,
`.ok none` a null `message.content`, `.ok (some s)` returned text. -/
def Transport := String → Except Unit (Option String)

/-- The `if result and len(result) > 0: return result` test of the source:
the usable text of one response, if any. -/
def usableText (r : Except Unit (Option String)) : Option String :=
  match r with
  | .ok (some s) => if s.length > 0 then some s else none
  | _ => none

/-- The candidate loop shared by `LLMClient.call` and `LLMClient.chat`:
first usable response wins; exceptions and empty text are skipped. -/
def callLoop (models : List String) (t : Transport) : Option String :=
  match models with
  | [] => none
  | m :: rest =>
    match usableText (t m) with
    | some s => some s
    | none => callLoop rest t

/-- `callLoop` instrumented with the list of candidates actually sent a
request, in request order. -/
def callLoopTrace (models : List String) (t : Transport) :
    Option String × List String :=
  match models with
  | [] => (none, [])
  | m :: rest =>
    match usableText (t m) with
    | some s => (some s, [m])
    | none =>
      let p := callLoopTrace rest t
      (p.1, m :: p.2)

/-- `LLMClient.call`: candidate list is `[self.model] + self.fallback_models`,
rebuilt on every invocation (no instance state is read by the loop). -/
def LLMClient.call (primary : String) (fallbacks : List String) (t : Transport) :
    Option String :=
  callLoop (primary :: fallbacks) t

def chatApology : String :=
  "I'm sorry, I encountered an error processing your request. The AI service is temporarily unavailable. Please try again in a moment."

/-- `LLMClient.chat`: same loop, fixed apology string on total failure. -/
def LLMClient.chat (primary : String) (fallbacks : List String) (t : Transport) :
    String :=
  match callLoop (primary :: fallbacks) t with
  | some s => s
  | none => chatApology

/-- Modelled from the claim's words (refinement reference, not from the
source): the first non-empty response text among the candidates in order,
skipping any candidate that raises or returns empty text. -/
def firstUsableResponse (models : List String) (t : Transport) : Option String :=
  models.findSome? (fun m => usableText (t m))

/-! ### The JSON repair pipeline of `call_json` -/

/-- Code-fence stripping of `call_json` (src/llm_client.py lines 100-109):
strip, drop a leading ```json / ``` fence, drop a trailing ``` fence,
strip again. -/
def stripFences (s : String) : String :=
  let s := pyStrip s
  let s := if s.startsWith "```json" then s.drop 7 else s
  let s := if s.startsWith "```" then s.drop 3 else s
  let s := if s.endsWith "```" then s.dropRight 3 else s
  pyStrip s

/-- Scanner state of `_try_fix_json`. -/
structure FixState where
  braceCount : Int
  bracketCount : Int
  lastValidPos : Nat
  inString : Bool
  escapeNext : Bool
deriving Repr, DecidableEq

def initFixState : FixState :=
  { braceCount := 0, bracketCount := 0, lastValidPos := 0,
    inString := false, escapeNext := false }

/-- One iteration of the `for i, char in enumerate(text)` loop of
`_try_fix_json` (src/llm_client.py lines 161-183). -/
def tryFixStep (st : FixState) (i : Nat) (c : Char) : FixState :=
  if st.escapeNext then { st with escapeNext := false }
  else if c = '\\' then { st with escapeNext := true }
  else if c = '"' then { st with inString := !st.inString }
  else if st.inString then st
  else if c = '{' then { st with braceCount := st.braceCount + 1 }
  else if c = '}' then
    let bc := st.braceCount - 1
    if bc = 0 then { st with braceCount := bc, lastValidPos := i + 1 }
    else { st with braceCount := bc }
  else if c = '[' then { st with bracketCount := st.bracketCount + 1 }
  else if c = ']' then { st with bracketCount := st.bracketCount - 1 }
  else st

def tryFixScan (s : String) : FixState :=
  s.data.enum.foldl (fun st p => tryFixStep st p.1 p.2) initFixState

/-- `LLMClient._try_fix_json`: truncate to the last offset at which the
running count of unmatched braces (outside string literals) returned to
zero, and strict-parse that prefix; `none` when no such offset exists or
the truncated prefix still fails to parse. -/
def tryFixJson (s : String) : Option Json :=
  let last := (tryFixScan s).lastValidPos
  if last > 0 then Json.parse (String.mk (s.data.take last)) else none

/-- The character replacements of `_aggressive_json_clean`: smart quotes,
en/em dashes and the non-breaking hyphen become ASCII.  The source applies
seven `str.replace` calls whose sources are distinct single non-ASCII
characters and whose targets are single ASCII characters, so the sequence
equals one character-wise map. -/
def normalizeUnicodeChar (c : Char) : Char :=
  if c = Char.ofNat 0x2011 then '-'
  else if c = Char.ofNat 0x2013 then '-'
  else if c = Char.ofNat 0x2014 then '-'
  else if c = Char.ofNat 0x2018 then '\''
  else if c = Char.ofNat 0x2019 then '\''
  else if c = Char.ofNat 0x201c then '"'
  else if c = Char.ofNat 0x201d then '"'
  else c

def normalizeUnicode (s : String) : String :=
  String.mk (s.data.map normalizeUnicodeChar)

/-- `LLMClient._aggressive_json_clean`: normalize typographic punctuation,
then retry the strict parse (`none` models the swallowed exception). -/
def aggressiveClean (s : String) : Option Json :=
  Json.parse (normalizeUnicode s)

/-- The fixed minimal placeholder of `_extract_partial_json`
(src/llm_client.py lines 223-235). -/
def interviewPrepPlaceholder : Json :=
  .obj [
    ("key_skills_to_highlight", .arr []),
    ("suggested_projects", .arr []),
    ("interview_preparation_tips", .arr []),
    ("common_questions", .arr []),
    ("technical_topics_to_study", .arr []),
    ("company_culture_prep", .obj [
      ("company_values", .str "Research the company"),
      ("questions_to_ask", .arr []),
      ("alignment_points", .arr [])]),
    ("confidence_boosters", .arr [.str "You have relevant skills for this role"])]

/-- The string surgery of `_extract_partial_json`: rstrip, trim back to the
last `"\x7d` when the text does not already end in a closer, then append
the missing `]` / `\x7d` characters counted naively over the whole text. -/
def partialFixText (text : String) : String :=
  let fixed := pyRstrip text
  let fixed :=
    if ¬ fixed.endsWith "\x7d" && ¬ fixed.endsWith "]" then
      let lastComplete := pyRfind fixed "\"\x7d"
      if lastComplete > 0 then String.mk (fixed.data.take (lastComplete.toNat + 2))
      else fixed
    else fixed
  let openBraces : Int := (fixed.data.count '{' : Int) - (fixed.data.count '}' : Int)
  let openBrackets : Int := (fixed.data.count '[' : Int) - (fixed.data.count ']' : Int)
  let fixed :=
    if openBrackets > 0 then fixed ++ String.mk (List.replicate openBrackets.toNat ']')
    else fixed
  let fixed :=
    if openBraces > 0 then fixed ++ String.mk (List.replicate openBraces.toNat '}')
    else fixed
  fixed

/-- `LLMClient._extract_partial_json`: parse the repaired text, and fall
back to the fixed placeholder when even that raises. -/
def extractPartialJson (text : String) : Json :=
  match Json.parse (partialFixText text) with
  | some v => v
  | none => interviewPrepPlaceholder

/-- Python truthiness filter applied by `call_json` to the results of the
first two repair tiers (`if fixed_json:` / `if cleaned:`). -/
def truthyOpt (o : Option Json) : Option Json :=
  match o with
  | some v => if v.truthy then some v else none
  | none => none

/-- The parse-and-repair step `call_json` applies to a non-None response
text (src/llm_client.py lines 100-131): fence stripping, strict parse,
then `_try_fix_json`, `_aggressive_json_clean`, `_extract_partial_json`. -/
def recoverParse (t : String) : Json :=
  match Json.parse t with
  | some v => v
  | none =>
    match truthyOpt (tryFixJson t) with
    | some v => v
    | none =>
      match truthyOpt (aggressiveClean t) with
      | some v => v
      | none => extractPartialJson t

inductive RepairTier where
  | braceFix
  | unicodeNorm
  | partialExtract
deriving Repr, DecidableEq

/-- The repair tiers `call_json` attempts, in source order, for a given
(fence-stripped) text: instrumentation of the `except` branch of
src/llm_client.py lines 113-131. -/
def repairAttempts (t : String) : List RepairTier :=
  match Json.parse t with
  | some _ => []
  | none =>
    match truthyOpt (tryFixJson t) with
    | some _ => [.braceFix]
    | none =>
      match truthyOpt (aggressiveClean t) with
      | some _ => [.braceFix, .unicodeNorm]
      | none => [.braceFix, .unicodeNorm, .partialExtract]

/-- `LLMClient.call_json`: `None` when the underlying `call` failed,
otherwise the repair pipeline applied to the response text. -/
def LLMClient.callJson (primary : String) (fallbacks : List String)
    (t : Transport) : Option Json :=
  match LLMClient.call primary fallbacks t with
  | none => none
  | some s => some (recoverParse (stripFences s))

/-! ## Further Python-value helpers used by the agents -/

namespace Json

/-- Is this value a Python list? -/
def isArr : Json → Bool
  | .arr _ => true
  | _ => false

/-- Top-level keys of a dict, in insertion order (empty for non-dicts). -/
def topKeys : Json → List String
  | .obj fields => fields.map Prod.fst
  | _ => []

/-- Direct field lookup on a dict value (no default, no exception). -/
def lookupTop (j : Json) (key : String) : Option Json :=
  match j with
  | .obj fields => lookupField fields key
  | _ => none

/-- Python `x == "s"` between a value and a string literal: true only for
the equal string. -/
def eqStr (j : Json) (s : String) : Bool :=
  match j with
  | .str t => t = s
  | _ => false

/-- Python `for x in j`: dicts yield their keys, lists their elements,
strings their characters (as 1-character strings); other values raise
`TypeError`. -/
def pyIterate (j : Json) : Except PyErr (List Json) :=
  match j with
  | .arr xs => .ok xs
  | .obj fields => .ok (fields.map (fun kv => Json.str kv.1))
  | .str s => .ok (s.data.map (fun c => Json.str (String.mk [c])))
  | _ => .error .typeError

/-- Python `len(j)`. -/
def pyLen (j : Json) : Except PyErr Nat :=
  match j with
  | .arr xs => .ok xs.length
  | .obj fields => .ok fields.length
  | .str s => .ok s.length
  | _ => .error .typeError

/-- Python `j[key] = v` on a dict (`TypeError` otherwise). -/
def setItem (j : Json) (key : String) (v : Json) : Except PyErr Json :=
  match j with
  | .obj fields => .ok (.obj (dictInsert fields key v))
  | _ => .error .typeError

/-- Python `key in j` for a string key: key membership for dicts, value
membership for lists, substring test for strings, `TypeError` otherwise. -/
def pyContainsKey (j : Json) (key : String) : Except PyErr Bool :=
  match j with
  | .obj fields => .ok (fields.any (fun kv => kv.1 = key))
  | .arr xs => .ok (xs.any (fun x => x.eqStr key))
  | .str s => .ok (strContainsSub s key)
  | _ => .error .typeError

/-- Does this value carry an integer-valued number? -/
def isIntNum : Json → Bool
  | .num q => q.den = 1
  | _ => false

end Json

/-- Rendering of a caught exception used for `str(e)` /
`{"message": str(e)}`; the exact wording is not modelled. -/
def pyErrMsg : PyErr → String
  | .valueError => "ValueError"
  | .typeError => "TypeError"
  | .attributeError => "AttributeError"
  | .keyError => "KeyError"
  | .indexError => "IndexError"

/-! ## ResumeAgent._validate_and_clean (src/agents/resume_agent.py lines 221-293)

The source rebuilds the resume object field by field from the model's raw
output `data`, substituting `user_profile` defaults for missing header and
contact fields and coercing each skill level with `int(...)`.  Each
section below is one of its loops. -/

def cleanHeader (data userProfile : Json) : Except PyErr Json := do
  let profName ← userProfile.getD "name" (.str "")
  let header ← data.getD "header" (.obj [])
  let name ← header.getD "name" profName
  let title ← header.getD "title" (.str "")
  pure (.obj [("name", name), ("title", title)])

def cleanContact (data userProfile : Json) : Except PyErr Json := do
  let contact ← data.getD "contact" (.obj [])
  let profPhone ← userProfile.getD "phone" (.str "")
  let phone ← contact.getD "phone" profPhone
  let profEmail ← userProfile.getD "email" (.str "")
  let email ← contact.getD "email" profEmail
  let profLocation ← userProfile.getD "location" (.str "")
  let address ← contact.getD "address" profLocation
  let profWebsite ← userProfile.getD "website" (.str "")
  let website ← contact.getD "website" profWebsite
  let profLinkedin ← userProfile.getD "linkedin" (.str "")
  let linkedin ← contact.getD "linkedin" profLinkedin
  pure (.obj [("phone", phone), ("email", email), ("address", address),
    ("website", website), ("linkedin", linkedin)])

/-- The `for skill in data.get('skills', [])` loop: dict entries are
rebuilt as `{name, level: int(...)}`, string entries get level 70, other
entries are skipped. -/
def cleanSkillsList : List Json → Except PyErr (List Json)
  | [] => .ok []
  | sk :: rest =>
    match sk with
    | .obj _ => do
      let name ← sk.getD "name" (.str "")
      let lvlRaw ← sk.getD "level" (.num 50)
      let lvl ← pyInt lvlRaw
      let tail ← cleanSkillsList rest
      pure (Json.obj [("name", name), ("level", .num (lvl : ℚ))] :: tail)
    | .str s => do
      let tail ← cleanSkillsList rest
      pure (Json.obj [("name", .str s), ("level", .num 70)] :: tail)
    | _ => cleanSkillsList rest

def cleanSkills (data : Json) : Except PyErr (List Json) := do
  let raw ← data.getD "skills" (.arr [])
  let items ← raw.pyIterate
  cleanSkillsList items

def cleanProjectsList : List Json → Except PyErr (List Json)
  | [] => .ok []
  | proj :: rest =>
    match proj with
    | .obj _ => do
      let nameDflt ← proj.getD "name" (.str "")
      let title ← proj.getD "title" nameDflt
      let techDflt ← proj.getD "technologies" (.arr [])
      let tech ← proj.getD "tech_stack" techDflt
      let ptsDflt ← proj.getD "highlights" (.arr [])
      let pts ← proj.getD "points" ptsDflt
      let tail ← cleanProjectsList rest
      pure (Json.obj [("title", title), ("tech_stack", tech), ("points", pts)] :: tail)
    | _ => cleanProjectsList rest

def cleanProjects (data : Json) : Except PyErr (List Json) := do
  let raw ← data.getD "projects" (.arr [])
  let items ← raw.pyIterate
  cleanProjectsList items

def cleanExperienceList : List Json → Except PyErr (List Json)
  | [] => .ok []
  | exp :: rest =>
    match exp with
    | .obj _ => do
      let titleDflt ← exp.getD "title" (.str "")
      let role ← exp.getD "role" titleDflt
      let company ← exp.getD "company" (.str "")
      let location ← exp.getD "location" (.str "")
      let duration ← exp.getD "duration" (.str "")
      let ptsDflt ← exp.getD "achievements" (.arr [])
      let pts ← exp.getD "points" ptsDflt
      let tail ← cleanExperienceList rest
      pure (Json.obj [("role", role), ("company", company), ("location", location),
        ("duration", duration), ("points", pts)] :: tail)
    | _ => cleanExperienceList rest

def cleanExperience (data : Json) : Except PyErr (List Json) := do
  let raw ← data.getD "experience" (.arr [])
  let items ← raw.pyIterate
  cleanExperienceList items

def cleanEducationList : List Json → Except PyErr (List Json)
  | [] => .ok []
  | edu :: rest =>
    match edu with
    | .obj _ => do
      let degree ← edu.getD "degree" (.str "")
      let institution ← edu.getD "institution" (.str "")
      let yearRaw ← edu.getD "year" (.str "")
      let details ← edu.getD "details" (.str "")
      let tail ← cleanEducationList rest
      pure (Json.obj [("degree", degree), ("institution", institution),
        ("year", .str (pyStrLite yearRaw)), ("details", details)] :: tail)
    | _ => cleanEducationList rest

def cleanEducation (data : Json) : Except PyErr (List Json) := do
  let raw ← data.getD "education" (.arr [])
  let items ← raw.pyIterate
  cleanEducationList items

def cleanCertificationsList : List Json → Except PyErr (List Json)
  | [] => .ok []
  | cert :: rest =>
    match cert with
    | .str s => do
      let tail ← cleanCertificationsList rest
      pure (Json.str s :: tail)
    | .obj _ => do
      let titleDflt ← cert.getD "title" (.str "")
      let name ← cert.getD "name" titleDflt
      let tail ← cleanCertificationsList rest
      pure (name :: tail)
    | _ => cleanCertificationsList rest

def cleanCertifications (data : Json) : Except PyErr (List Json) := do
  let raw ← data.getD "certifications" (.arr [])
  let items ← raw.pyIterate
  cleanCertificationsList items

/-! ## SkillGapAgent (src/agents/skill_gap_agent.py) -/

/-- One learning-resource dict without a duration field. -/
def resource (title ty url platform : String) : Json :=
  .obj [("title", .str title), ("type", .str ty), ("url", .str url),
    ("platform", .str platform)]

/-- One learning-resource dict with a duration field. -/
def resourceD (title ty url platform duration : String) : Json :=
  .obj [("title", .str title), ("type", .str ty), ("url", .str url),
    ("platform", .str platform), ("duration", .str duration)]

/-- The curated learning-resource table of
`SkillGapAgent._get_curated_resources`, in source (dict-insertion) order. -/
def curatedTable : List (String × List Json) := [
  ("Node.js", [
    resourceD "Node.js Full Course for Beginners" "video" "https://www.youtube.com/watch?v=f2EqECiTBL8" "YouTube" "3 hours",
    resourceD "Node.js Crash Course - Traversy Media" "video" "https://www.youtube.com/watch?v=fBNz5xF-Kx4" "YouTube" "1.5 hours",
    resource "Node.js Official Documentation" "documentation" "https://nodejs.org/en/docs/" "Official Docs"]),
  ("TypeScript", [
    resourceD "TypeScript Full Course - freeCodeCamp" "video" "https://www.youtube.com/watch?v=gp5H0Vw39yw" "YouTube" "1.5 hours",
    resourceD "TypeScript Tutorial - The Net Ninja" "video" "https://www.youtube.com/watch?v=2pZmKW9-I_k" "YouTube" "2 hours",
    resource "TypeScript Handbook" "documentation" "https://www.typescriptlang.org/docs/handbook/" "Official Docs"]),
  ("React", [
    resourceD "React Full Course 2024 - freeCodeCamp" "video" "https://www.youtube.com/watch?v=CgkZ7MvWUAA" "YouTube" "12 hours",
    resourceD "React JS Crash Course - Traversy Media" "video" "https://www.youtube.com/watch?v=w7ejDZ8SWv8" "YouTube" "1.5 hours",
    resource "React Official Documentation" "documentation" "https://react.dev/learn" "Official Docs"]),
  ("Python", [
    resourceD "Python Full Course - freeCodeCamp" "video" "https://www.youtube.com/watch?v=rfscVS0vtbw" "YouTube" "4.5 hours",
    resourceD "Python Tutorial - Programming with Mosh" "video" "https://www.youtube.com/watch?v=_uQrJ0TkZlc" "YouTube" "6 hours",
    resource "Python Official Documentation" "documentation" "https://docs.python.org/3/tutorial/" "Official Docs"]),
  ("JavaScript", [
    resourceD "JavaScript Full Course - freeCodeCamp" "video" "https://www.youtube.com/watch?v=PkZNo7MFNFg" "YouTube" "3.5 hours",
    resourceD "JavaScript Crash Course - Traversy Media" "video" "https://www.youtube.com/watch?v=hdI2bqOjy3c" "YouTube" "1.5 hours",
    resource "MDN JavaScript Guide" "documentation" "https://developer.mozilla.org/en-US/docs/Web/JavaScript/Guide" "MDN"]),
  ("Docker", [
    resourceD "Docker Tutorial for Beginners - TechWorld" "video" "https://www.youtube.com/watch?v=3c-iBn73dDE" "YouTube" "3 hours",
    resourceD "Docker Crash Course - Traversy Media" "video" "https://www.youtube.com/watch?v=pg19Z8LL06w" "YouTube" "1 hour",
    resource "Docker Official Documentation" "documentation" "https://docs.docker.com/get-started/" "Official Docs"]),
  ("AWS", [
    resourceD "AWS Certified Cloud Practitioner Training" "video" "https://www.youtube.com/watch?v=SOTamWNgDKc" "YouTube" "4 hours",
    resourceD "AWS Tutorial For Beginners - Simplilearn" "video" "https://www.youtube.com/watch?v=k1RI5locZE4" "YouTube" "4 hours",
    resource "AWS Documentation" "documentation" "https://docs.aws.amazon.com/" "Official Docs"]),
  ("SQL", [
    resourceD "SQL Tutorial - Full Database Course" "video" "https://www.youtube.com/watch?v=HXV3zeQKqGY" "YouTube" "4 hours",
    resourceD "MySQL Tutorial for Beginners" "video" "https://www.youtube.com/watch?v=7S_tz1z_5bA" "YouTube" "3 hours",
    resource "W3Schools SQL Tutorial" "documentation" "https://www.w3schools.com/sql/" "W3Schools"]),
  ("Git", [
    resourceD "Git and GitHub for Beginners - freeCodeCamp" "video" "https://www.youtube.com/watch?v=RGOj5yH7evk" "YouTube" "1 hour",
    resourceD "Git Tutorial for Beginners - Programming with Mosh" "video" "https://www.youtube.com/watch?v=8JJ101D3knE" "YouTube" "1 hour",
    resource "Git Official Documentation" "documentation" "https://git-scm.com/doc" "Official Docs"]),
  ("System Design", [
    resourceD "System Design Interview - ByteByteGo" "video" "https://www.youtube.com/watch?v=UzLMhqg3_Wc" "YouTube" "1 hour",
    resourceD "System Design for Beginners - Gaurav Sen" "video" "https://www.youtube.com/watch?v=xpDnVSmNFX0" "YouTube" "30 min",
    resource "System Design Primer" "documentation" "https://github.com/donnemartin/system-design-primer" "GitHub"]),
  ("MongoDB", [
    resourceD "MongoDB Crash Course - Traversy Media" "video" "https://www.youtube.com/watch?v=-56x56UppqQ" "YouTube" "1.5 hours",
    resourceD "MongoDB Complete Course - Net Ninja" "video" "https://www.youtube.com/watch?v=ExcRbA7fy_A" "YouTube" "3 hours",
    resource "MongoDB Official Documentation" "documentation" "https://www.mongodb.com/docs/" "Official Docs"]),
  ("REST APIs", [
    resourceD "REST API Tutorial - Programming with Mosh" "video" "https://www.youtube.com/watch?v=SLwpqD8n3d0" "YouTube" "1 hour",
    resourceD "Build A REST API With Node.js - Traversy Media" "video" "https://www.youtube.com/watch?v=pKd0Rpw7O48" "YouTube" "1 hour",
    resource "RESTful API Design Guide" "documentation" "https://restfulapi.net/" "RestfulAPI.net"]),
  ("GraphQL", [
    resourceD "GraphQL Full Course - freeCodeCamp" "video" "https://www.youtube.com/watch?v=ed8SzALpx1Q" "YouTube" "4 hours",
    resourceD "GraphQL Crash Course - Traversy Media" "video" "https://www.youtube.com/watch?v=BcLNfwF04Kw" "YouTube" "1 hour",
    resource "GraphQL Official Documentation" "documentation" "https://graphql.org/learn/" "Official Docs"]),
  ("CI/CD", [
    resourceD "GitHub Actions Tutorial - TechWorld" "video" "https://www.youtube.com/watch?v=R8_veQiYBjI" "YouTube" "1 hour",
    resourceD "Jenkins Tutorial For Beginners" "video" "https://www.youtube.com/watch?v=FX322RVNGj4" "YouTube" "2 hours",
    resource "GitHub Actions Documentation" "documentation" "https://docs.github.com/en/actions" "GitHub"]),
  ("Kubernetes", [
    resourceD "Kubernetes Tutorial for Beginners - TechWorld" "video" "https://www.youtube.com/watch?v=X48VuDVv0do" "YouTube" "4 hours",
    resourceD "Kubernetes Crash Course - Traversy Media" "video" "https://www.youtube.com/watch?v=s_o8dwzRlu4" "YouTube" "1 hour",
    resource "Kubernetes Official Documentation" "documentation" "https://kubernetes.io/docs/home/" "Official Docs"]),
  ("Vue.js", [
    resourceD "Vue.js Course for Beginners - freeCodeCamp" "video" "https://www.youtube.com/watch?v=FXpIoQ_rT_c" "YouTube" "3.5 hours",
    resourceD "Vue 3 Crash Course - Traversy Media" "video" "https://www.youtube.com/watch?v=qZXt1Aom3Cs" "YouTube" "1.5 hours",
    resource "Vue.js Official Documentation" "documentation" "https://vuejs.org/guide/introduction.html" "Official Docs"]),
  ("Angular", [
    resourceD "Angular Tutorial for Beginners - Programming with Mosh" "video" "https://www.youtube.com/watch?v=k5E2AVpwsko" "YouTube" "2 hours",
    resourceD "Angular Crash Course - Traversy Media" "video" "https://www.youtube.com/watch?v=3dHNOWTI7H8" "YouTube" "2 hours",
    resource "Angular Official Documentation" "documentation" "https://angular.io/docs" "Official Docs"]),
  ("Machine Learning", [
    resourceD "Machine Learning Full Course - freeCodeCamp" "video" "https://www.youtube.com/watch?v=NWONeJKn6kc" "YouTube" "10 hours",
    resourceD "Machine Learning for Beginners - Simplilearn" "video" "https://www.youtube.com/watch?v=ukzFI9rgwfU" "YouTube" "4 hours",
    resource "Google ML Crash Course" "course" "https://developers.google.com/machine-learning/crash-course" "Google"]),
  ("Data Structures", [
    resourceD "Data Structures Full Course - freeCodeCamp" "video" "https://www.youtube.com/watch?v=RBSGKlAvoiM" "YouTube" "8 hours",
    resourceD "Data Structures - CS Dojo" "video" "https://www.youtube.com/watch?v=bum_19loj9A" "YouTube" "20 min",
    resource "GeeksforGeeks DSA" "documentation" "https://www.geeksforgeeks.org/data-structures/" "GeeksforGeeks"]),
  ("Algorithms", [
    resourceD "Algorithms Course - freeCodeCamp" "video" "https://www.youtube.com/watch?v=8hly31xKli0" "YouTube" "5 hours",
    resourceD "Algorithms Explained - Reducible" "video" "https://www.youtube.com/watch?v=WbzNRTTrX0g" "YouTube" "20 min",
    resource "Algorithms - Khan Academy" "course" "https://www.khanacademy.org/computing/computer-science/algorithms" "Khan Academy"]),
  ("HTML/CSS", [
    resourceD "HTML & CSS Full Course - freeCodeCamp" "video" "https://www.youtube.com/watch?v=mU6anWqZJcc" "YouTube" "11 hours",
    resourceD "CSS Crash Course - Traversy Media" "video" "https://www.youtube.com/watch?v=yfoY53QXEnI" "YouTube" "1.5 hours",
    resource "MDN HTML/CSS Guide" "documentation" "https://developer.mozilla.org/en-US/docs/Learn/HTML" "MDN"]),
  ("Responsive Design", [
    resourceD "Responsive Web Design - freeCodeCamp" "video" "https://www.youtube.com/watch?v=srvUrASNj0s" "YouTube" "4 hours",
    resourceD "Flexbox Crash Course - Traversy Media" "video" "https://www.youtube.com/watch?v=3YW65K6LcIA" "YouTube" "20 min",
    resource "MDN Responsive Design" "documentation" "https://developer.mozilla.org/en-US/docs/Learn/CSS/CSS_layout/Responsive_Design" "MDN"]),
  ("User Research", [
    resourceD "UX Research for Beginners - CareerFoundry" "video" "https://www.youtube.com/watch?v=gGZGDnTY454" "YouTube" "10 min",
    resourceD "User Research Methods - NNGroup" "video" "https://www.youtube.com/watch?v=7_sFVYfatXY" "YouTube" "5 min",
    resource "Nielsen Norman Group UX Research" "documentation" "https://www.nngroup.com/articles/ux-research-cheat-sheet/" "NNGroup"]),
  ("Wireframing", [
    resourceD "Wireframing for Beginners - Figma" "video" "https://www.youtube.com/watch?v=6t_dYhXyYjI" "YouTube" "30 min",
    resourceD "How to Wireframe - UX Mastery" "video" "https://www.youtube.com/watch?v=8-vTd7GRk-w" "YouTube" "5 min",
    resource "Wireframing Guide - Figma" "documentation" "https://www.figma.com/resource-library/what-is-wireframing/" "Figma"]),
  ("Prototyping", [
    resourceD "Figma Prototyping Tutorial" "video" "https://www.youtube.com/watch?v=iBkXf6u8Mzc" "YouTube" "15 min",
    resourceD "Prototyping in Figma - freeCodeCamp" "video" "https://www.youtube.com/watch?v=jwCmIBJ8Jtc" "YouTube" "2 hours",
    resource "Figma Prototyping Guide" "documentation" "https://help.figma.com/hc/en-us/articles/360040314193-Guide-to-prototyping-in-Figma" "Figma"]),
  ("Figma", [
    resourceD "Figma Tutorial for Beginners - freeCodeCamp" "video" "https://www.youtube.com/watch?v=jwCmIBJ8Jtc" "YouTube" "2 hours",
    resourceD "Figma UI Design Tutorial - DesignCourse" "video" "https://www.youtube.com/watch?v=FTFaQWZBqQ8" "YouTube" "1 hour",
    resource "Figma Official Tutorials" "documentation" "https://help.figma.com/hc/en-us/categories/360002051613-Get-started" "Figma"]),
  ("UI Design", [
    resourceD "UI Design Tutorial for Beginners" "video" "https://www.youtube.com/watch?v=c9Wg6Cb_YlU" "YouTube" "1 hour",
    resourceD "UI Design Fundamentals - Scrimba" "video" "https://www.youtube.com/watch?v=_Hp_dI0DzY4" "YouTube" "1 hour",
    resource "Laws of UX" "documentation" "https://lawsofux.com/" "Laws of UX"]),
  ("UX Design", [
    resourceD "UX Design Course - Google" "video" "https://www.youtube.com/watch?v=VoLzL3cchyE" "YouTube" "30 min",
    resourceD "UX Design Tutorial for Beginners" "video" "https://www.youtube.com/watch?v=uL2ZB7XXIgg" "YouTube" "45 min",
    resource "Google UX Design Certificate" "course" "https://grow.google/certificates/ux-design/" "Google"]),
  ("Testing", [
    resourceD "Software Testing Tutorial - Guru99" "video" "https://www.youtube.com/watch?v=sO8eGL6SFsA" "YouTube" "3 hours",
    resourceD "JavaScript Testing - Fireship" "video" "https://www.youtube.com/watch?v=u6QfIXgjwGQ" "YouTube" "12 min",
    resource "Testing Library Docs" "documentation" "https://testing-library.com/docs/" "Official Docs"]),
  ("Webpack", [
    resourceD "Webpack Crash Course - Traversy Media" "video" "https://www.youtube.com/watch?v=IZGNcSuwBZs" "YouTube" "30 min",
    resourceD "Webpack Tutorial - freeCodeCamp" "video" "https://www.youtube.com/watch?v=MpGLUVbqoYQ" "YouTube" "2 hours",
    resource "Webpack Official Documentation" "documentation" "https://webpack.js.org/guides/getting-started/" "Official Docs"]),
  ("Redis", [
    resourceD "Redis Crash Course - TechWorld" "video" "https://www.youtube.com/watch?v=XCsS_NVAa1g" "YouTube" "1 hour",
    resourceD "Redis Tutorial - freeCodeCamp" "video" "https://www.youtube.com/watch?v=jgpVdJB2sKQ" "YouTube" "1 hour",
    resource "Redis Official Documentation" "documentation" "https://redis.io/docs/" "Official Docs"]),
  ("Express.js", [
    resourceD "Express.js Crash Course - Traversy Media" "video" "https://www.youtube.com/watch?v=L72fhGm1tfE" "YouTube" "1.5 hours",
    resourceD "Express.js Tutorial - Programming with Mosh" "video" "https://www.youtube.com/watch?v=pKd0Rpw7O48" "YouTube" "1 hour",
    resource "Express.js Official Documentation" "documentation" "https://expressjs.com/en/starter/installing.html" "Official Docs"]),
  ("Next.js", [
    resourceD "Next.js Tutorial - Traversy Media" "video" "https://www.youtube.com/watch?v=mTz0GXj8NN0" "YouTube" "1 hour",
    resourceD "Next.js Full Course - JavaScript Mastery" "video" "https://www.youtube.com/watch?v=wm5gMKuwSYk" "YouTube" "5 hours",
    resource "Next.js Official Documentation" "documentation" "https://nextjs.org/docs" "Official Docs"]),
  ("TailwindCSS", [
    resourceD "Tailwind CSS Crash Course - Traversy Media" "video" "https://www.youtube.com/watch?v=UBOj6rqRUME" "YouTube" "30 min",
    resourceD "Tailwind CSS Tutorial - The Net Ninja" "video" "https://www.youtube.com/watch?v=bxmDnn7lrnk" "YouTube" "2 hours",
    resource "Tailwind CSS Documentation" "documentation" "https://tailwindcss.com/docs" "Official Docs"]),
  ("Problem Solving", [
    resourceD "Problem Solving for Developers - Fireship" "video" "https://www.youtube.com/watch?v=UFc-RPbq8kg" "YouTube" "10 min",
    resourceD "How to Think Like a Programmer" "video" "https://www.youtube.com/watch?v=azcrPFhaY9k" "YouTube" "15 min",
    resource "LeetCode Practice" "course" "https://leetcode.com/problemset/all/" "LeetCode"]),
  ("Communication", [
    resourceD "Communication Skills for Engineers" "video" "https://www.youtube.com/watch?v=HAnw168huqA" "YouTube" "15 min",
    resourceD "Technical Communication Skills" "video" "https://www.youtube.com/watch?v=Z6ygdopLpO4" "YouTube" "10 min",
    resource "Communication Skills Guide" "documentation" "https://www.mindtools.com/page8.html" "MindTools"])]

/-- `SkillGapAgent._get_curated_resources` on a string skill name: exact
key match first, then the first case-insensitive partial match in table
order. -/
def getCuratedResources (skillName : String) : Option (List Json) :=
  match curatedTable.find? (fun kv => kv.1 = skillName) with
  | some kv => some kv.2
  | none =>
    let lower := skillName.toLower
    match curatedTable.find? (fun kv =>
        strContainsSub kv.1.toLower lower || strContainsSub lower kv.1.toLower) with
    | some kv => some kv.2
    | none => none

/-- `SkillGapAgent._get_fallback_resources`: curated resources when
available, otherwise the generic three-resource template. -/
def getFallbackResources (skillName : String) : List Json :=
  match getCuratedResources skillName with
  | some rs => rs
  | none => [
      resource ("Learn " ++ skillName ++ " - freeCodeCamp") "course" "https://www.freecodecamp.org/learn/" "freeCodeCamp",
      resource (skillName ++ " Tutorial - Coursera") "course" "https://www.coursera.org/" "Coursera",
      resource "MDN Web Docs" "documentation" "https://developer.mozilla.org/en-US/" "MDN"]

/-- A role's requirement lists (`SkillGapAgent.role_requirements` values). -/
structure RoleReqs where
  required : List String
  preferred : List String
  softSkills : List String

/-- `SkillGapAgent.role_requirements`, in source (dict-insertion) order. -/
def roleRequirements : List (String × RoleReqs) := [
  ("Full Stack Developer",
    { required := ["JavaScript", "React", "Node.js", "SQL", "Git", "REST APIs", "HTML/CSS"],
      preferred := ["TypeScript", "Docker", "AWS", "MongoDB", "GraphQL", "CI/CD"],
      softSkills := ["Problem Solving", "Communication", "Team Collaboration"] }),
  ("Frontend Developer",
    { required := ["JavaScript", "React", "HTML/CSS", "Git", "Responsive Design"],
      preferred := ["TypeScript", "Vue.js", "Testing", "Webpack", "Figma"],
      softSkills := ["Attention to Detail", "Communication", "Creativity"] }),
  ("Backend Developer",
    { required := ["Python", "Node.js", "SQL", "REST APIs", "Git"],
      preferred := ["Docker", "AWS", "Redis", "Microservices", "GraphQL"],
      softSkills := ["Problem Solving", "System Thinking", "Documentation"] }),
  ("Data Scientist",
    { required := ["Python", "SQL", "Statistics", "Machine Learning", "Pandas", "NumPy"],
      preferred := ["TensorFlow", "PyTorch", "Spark", "Tableau", "Deep Learning"],
      softSkills := ["Analytical Thinking", "Communication", "Curiosity"] }),
  ("Software Engineer",
    { required := ["Programming", "Data Structures", "Algorithms", "Git", "Problem Solving"],
      preferred := ["System Design", "Cloud", "CI/CD", "Testing", "Agile"],
      softSkills := ["Communication", "Teamwork", "Critical Thinking"] })]

/-- The requirements-selection loop of `_fallback_analysis`: default
"Software Engineer", overridden by the first key containing the target
role case-insensitively. -/
def pickRequirements (targetRole : String) : RoleReqs :=
  let dflt : RoleReqs :=
    ((roleRequirements.find? (fun kv => kv.1 = "Software Engineer")).map Prod.snd).getD
      { required := [], preferred := [], softSkills := [] }
  match roleRequirements.find? (fun kv =>
      strContainsSub kv.1.toLower targetRole.toLower) with
  | some kv => kv.2
  | none => dflt

/-- `[s.get('skill_name', str(s)).lower() for s in user_skills]`: raises
when an entry is not a dict or its skill name is not a string. -/
def userSkillNamesLower (userSkills : List Json) : Except PyErr (List String) :=
  userSkills.mapM (fun s => do
    let v ← s.getD "skill_name" (.str (pyStrLite s))
    match v with
    | .str t => pure t.toLower
    | _ => .error .attributeError)

/-- One gap dict built by `_fallback_analysis` (field-for-field image of
the dict literal of src/agents/skill_gap_agent.py lines 565-574 and
578-587). -/
structure GapEntry where
  skillName : String
  currentLevel : String
  requiredLevel : String
  priority : String
  importance : String
  estimatedLearningTime : String
  learningApproach : String
  learningResources : List Json

def GapEntry.toJson (g : GapEntry) : Json :=
  .obj [("skill_name", .str g.skillName), ("current_level", .str g.currentLevel),
    ("required_level", .str g.requiredLevel), ("priority", .str g.priority),
    ("importance", .str g.importance),
    ("estimated_learning_time", .str g.estimatedLearningTime),
    ("learning_approach", .str g.learningApproach),
    ("learning_resources", .arr g.learningResources)]

/-- The required-skill gap entry of `_fallback_analysis`. -/
def requiredGapEntry (sk : String) : GapEntry :=
  { skillName := sk, currentLevel := "none", requiredLevel := "intermediate",
    priority := "high", importance := "Core requirement for role",
    estimatedLearningTime := "2-4 weeks",
    learningApproach := "Start with fundamentals of " ++ sk ++ ", practice with projects",
    learningResources := getFallbackResources sk }

/-- The preferred-skill gap entry of `_fallback_analysis`. -/
def preferredGapEntry (sk : String) : GapEntry :=
  { skillName := sk, currentLevel := "none", requiredLevel := "beginner",
    priority := "medium", importance := "Preferred skill for role",
    estimatedLearningTime := "1-2 weeks",
    learningApproach := "Learn basics of " ++ sk ++ " through tutorials and practice",
    learningResources := getFallbackResources sk }

/-- `SkillGapAgent._fallback_analysis`. -/
def SkillGapAgent.fallbackAnalysis (userSkills : List Json) (targetRole : String) :
    Except PyErr Json := do
  let reqs := pickRequirements targetRole
  let names ← userSkillNamesLower userSkills
  let matching := (reqs.required.filter (fun sk => names.contains sk.toLower)).map
    (fun sk => Json.obj [("skill_name", .str sk), ("status", .str "meets")])
  let gaps :=
    (reqs.required.filter (fun sk => ¬ names.contains sk.toLower)).map requiredGapEntry ++
    (reqs.preferred.filter (fun sk => ¬ names.contains sk.toLower)).map preferredGapEntry
  let high := (gaps.filter (fun g => g.priority = "high")).length
  let readiness : Json :=
    if matching.isEmpty && gaps.isEmpty then .num 50
    else .num ((pyRound ((matching.length : ℚ) /
      ((matching.length + gaps.length : ℕ) : ℚ) * 100) : ℤ) : ℚ)
  pure (.obj [("agent", .str "SkillGapAgent"), ("status", .str "fallback"),
    ("analysis", .obj [
      ("target_role", .str targetRole),
      ("skill_gaps", .arr (gaps.map GapEntry.toJson)),
      ("matching_skills", .arr matching),
      ("gap_summary", .obj [
        ("total_gaps", .num (gaps.length : ℚ)),
        ("high_priority", .num (high : ℚ)),
        ("medium_priority", .num ((gaps.length - high : ℕ) : ℚ)),
        ("low_priority", .num 0)]),
      ("readiness_percentage", readiness),
      ("critical_path", .arr
        (((gaps.filter (fun g => g.priority = "high")).map
          (fun g => Json.str g.skillName)).take 3)),
      ("overall_assessment", .str "Analysis based on standard role requirements.")])])

/-- The per-gap resource replacement of `analyze_gaps` (success branch):
curated resources when available, fallback template otherwise, then the
defensive list check.  A non-string skill name fails the exact dict
lookup and raises at `.lower()` in the source. -/
def updateGapResources (gap : Json) : Except PyErr Json := do
  let skillNameJ ← gap.getD "skill_name" (.str "")
  match skillNameJ with
  | .str name => do
    let resources :=
      match getCuratedResources name with
      | some rs => rs
      | none => getFallbackResources name
    let gap1 ← gap.setItem "learning_resources" (.arr resources)
    let lr ← gap1.getD "learning_resources" .null
    if lr.truthy && lr.isArr then pure gap1
    else gap1.setItem "learning_resources" (.arr (getFallbackResources name))
  | _ => .error .attributeError

/-- `SkillGapAgent.analyze_gaps`, with the result of `llm.call_json`
passed in as `llmResult` (`none` models a `None` return).  The `if not
result:` test also routes falsy parse results to the fallback. -/
def SkillGapAgent.analyzeGaps (llmResult : Option Json) (userSkills : List Json)
    (targetRole : String) : Except PyErr Json := do
  match llmResult with
  | none => SkillGapAgent.fallbackAnalysis userSkills targetRole
  | some result =>
    if ¬ result.truthy then SkillGapAgent.fallbackAnalysis userSkills targetRole
    else do
      let hasGaps ← result.pyContainsKey "skill_gaps"
      let result1 ←
        if hasGaps then do
          let gapsJ ← result.item "skill_gaps"
          let items ← gapsJ.pyIterate
          let items1 ← items.mapM updateGapResources
          match gapsJ with
          | .arr _ => result.setItem "skill_gaps" (.arr items1)
          | _ => pure result
        else pure result
      pure (.obj [("agent", .str "SkillGapAgent"), ("status", .str "success"),
        ("analysis", result1)])

/-! ## PlannerAgent._fallback_roadmap (src/agents/planner_agent.py lines 289-336) -/

/-- The week computation of `_fallback_roadmap`: default 12; numeric
first token of the timeline overrides it, multiplied by 4 when the
timeline mentions months; `parts[0]` on a whitespace-only (but truthy)
timeline raises `IndexError`. -/
def fallbackWeeks (timeline : String) : Except PyErr Nat :=
  if timeline ≠ "" then
    match pySplit timeline with
    | [] => .error .indexError
    | p :: _ =>
      if pyIsdigit p then
        pure (if strContainsSub timeline.toLower "month" then digitsToNat p.data * 4
          else digitsToNat p.data)
      else pure 12
  else pure 12

/-- `gap_names`: per gap, `g.get('skill_name', str(g))` for dicts, `str(g)`
otherwise (values kept as they are, like the source). -/
def fallbackGapNames (skillGaps : List Json) : List Json :=
  skillGaps.map (fun g =>
    match g with
    | .obj fields => (Json.lookupField fields "skill_name").getD (.str (pyStrLite g))
    | _ => .str (pyStrLite g))

/-- The weekly-plan dict appended for loop index `i` (0-based) focusing
`currentSkill`. -/
def fallbackWeekPlan (i : Nat) (currentSkill : Json) : Json :=
  let cs := pyStrLite currentSkill
  .obj [("week_number", .num ((i + 1 : ℕ) : ℚ)),
    ("title", .str ("Week " ++ toString (i + 1) ++ ": " ++ cs)),
    ("description", .str ("Focus on building " ++ cs ++ " skills")),
    ("tasks", .arr [
      .obj [("id", .num 1), ("title", .str ("Study " ++ cs ++ " fundamentals")),
        ("type", .str "learn"), ("estimated_hours", .num 5)],
      .obj [("id", .num 2), ("title", .str ("Practice " ++ cs)),
        ("type", .str "practice"), ("estimated_hours", .num 3)],
      .obj [("id", .num 3), ("title", .str "Build mini-project"),
        ("type", .str "build"), ("estimated_hours", .num 4)]]),
    ("milestones", .arr [.str ("Understand " ++ cs ++ " basics"),
      .str "Complete practice exercises"]),
    ("ai_notes", .str "Focus on understanding core concepts before moving to advanced topics.")]

/-- The `for i in range(min(weeks, 12))` loop: week `i` focuses
`gap_names[i % len(gap_names)]`, or "General Skills" when there are no
gaps. -/
def fallbackWeeklyPlans (gapNames : List Json) (weeks : Nat) : List Json :=
  (List.range (min weeks 12)).map (fun i =>
    let currentSkill :=
      if gapNames.isEmpty then Json.str "General Skills"
      else gapNames.getD (i % gapNames.length) (.str "General Skills")
    fallbackWeekPlan i currentSkill)

/-- The roadmap object `_fallback_roadmap` assembles once `weeks` has
been computed. -/
def fallbackRoadmapObj (skillGaps : List Json)
    (targetRole timeline today : String) (weeks : Nat) : Json :=
  let gapNames := fallbackGapNames skillGaps
  let weeklyPlans := fallbackWeeklyPlans gapNames weeks
  (.obj [("agent", .str "PlannerAgent"), ("status", .str "fallback"),
    ("roadmap", .obj [
      ("roadmap_title", .str ("Path to " ++ targetRole)),
      ("target_role", .str targetRole),
      ("total_duration", .str timeline),
      ("start_date", .str today),
      ("phases", .arr [
        .obj [("phase_number", .num 1), ("name", .str "Foundation"),
          ("duration", .str (toString (weeks / 3) ++ " weeks")),
          ("focus_areas", .arr (gapNames.take 3))],
        .obj [("phase_number", .num 2), ("name", .str "Building"),
          ("duration", .str (toString (weeks / 3) ++ " weeks")),
          ("focus_areas", .arr (if gapNames.length > 3 then (gapNames.drop 3).take 3 else gapNames))],
        .obj [("phase_number", .num 3), ("name", .str "Mastery"),
          ("duration", .str (toString (weeks / 3) ++ " weeks")),
          ("focus_areas", .arr [.str "Projects", .str "Portfolio"])]]),
      ("weekly_plans", .arr weeklyPlans),
      ("success_metrics", .arr [.str "Complete all weekly tasks",
        .str "Build portfolio projects", .str "Practice interviews"]),
      ("tips", .arr [.str "Stay consistent", .str "Build projects",
        .str "Join communities"])])])

/-- `PlannerAgent._fallback_roadmap` (`today` stands for
`datetime.now().strftime('%Y-%m-%d')`). -/
def PlannerAgent.fallbackRoadmap (skillGaps : List Json)
    (targetRole timeline today : String) : Except PyErr Json := do
  let weeks ← fallbackWeeks timeline
  pure (fallbackRoadmapObj skillGaps targetRole timeline today weeks)

/-! ## Database.save_skill_gaps (src/database.py lines 170-192)

The `skill_gaps` table is modelled as a list of `GapRow`; the SQL
`DELETE ... WHERE user_id = %s AND goal_id = %s` followed by one
`INSERT` per gap becomes a filter followed by appends.  The
`learning_resources` column stores the JSON serialization of the value;
the model keeps the value itself (`none` for the `NULL` written when the
list is falsy) — the replacement semantics do not depend on the
encoding. -/

structure GapRow where
  userId : Int
  goalId : Int
  skillName : Json
  currentLevel : Json
  requiredLevel : Json
  priority : Json
  learningResources : Option Json
  estimatedLearningTime : Json
  learningApproach : Json

/-- One row of the insert loop: `gap['learning_resources']` default is
read first (source line 183), then `gap['skill_name']` (KeyError when
missing) and the defaulted columns. -/
def gapToRow (u g : Int) (gap : Json) : Except PyErr GapRow := do
  let lr ← gap.getD "learning_resources" (.arr [])
  let sn ← gap.item "skill_name"
  let cl ← gap.getD "current_level" (.str "none")
  let rl ← gap.getD "required_level" (.str "intermediate")
  let pr ← gap.getD "priority" (.str "medium")
  let et ← gap.getD "estimated_learning_time" .null
  let la ← gap.getD "learning_approach" .null
  let row : GapRow :=
    { userId := u, goalId := g, skillName := sn, currentLevel := cl,
      requiredLevel := rl, priority := pr,
      learningResources := if lr.truthy then some lr else none,
      estimatedLearningTime := et, learningApproach := la }
  pure row

/-- `Database.save_skill_gaps`: delete every row of the (user, goal)
pair, then insert the new gaps in order. -/
def saveSkillGaps (table : List GapRow) (u g : Int) (gaps : List Json) :
    Except PyErr (List GapRow) := do
  let kept := table.filter (fun r => !(r.userId == u && r.goalId == g))
  let newRows ← gaps.mapM (gapToRow u g)
  pure (kept ++ newRows)

/-! ## AgentOrchestrator (src/orchestrator.py)

The persisted store is modelled as a `Db` record: the read methods used
by `observe_user_state` are fields (query results per user), the tables
written by the modelled paths (`agent_sessions`, `memory_vectors`,
`skill_gaps`) are explicit lists.  The orchestrator object's own fields
(`current_user_id`, `session_memory`) form `Orch`. -/

structure SessionRow where
  userId : Int
  sessionType : String
  inputData : Json
  outputData : Option Json
  thoughts : Json
  status : String

structure Db where
  getUserProfile : Int → Json
  getUserSkills : Int → List Json
  getUserGoals : Int → List Json
  getPrimaryGoal : Int → Json
  getSkillGaps : Int → Json → List Json
  getUserPlans : Int → Json → List Json
  getUserFeedback : Int → Nat → List Json
  getApplications : Int → List Json
  searchMemories : Int → Nat → List Json
  sessions : List SessionRow
  memories : List (Int × String)
  gapTable : List GapRow

structure Orch where
  currentUserId : Option Int
  sessionMemory : List (Int × Json)

structure Sys where
  orch : Orch
  db : Db

/-- Python dict assignment `self.session_memory[user_id] = state`. -/
def assocSet (l : List (Int × Json)) (k : Int) (v : Json) : List (Int × Json) :=
  match l with
  | [] => [(k, v)]
  | (k1, v1) :: rest => if k1 = k then (k1, v) :: rest else (k1, v1) :: assocSet rest k v

/-- The task-counting loop of `_calculate_stats`: total tasks and
completed tasks over all plans. -/
def calculateTaskCounts (plans : List Json) : Except PyErr (Nat × Nat) :=
  plans.foldlM (fun acc plan => do
    let tasksJ ← plan.getD "tasks" (.arr [])
    let n ← tasksJ.pyLen
    let items ← tasksJ.pyIterate
    let c ← items.foldlM (fun (c : Nat) t => do
      let comp ← t.getD "completed" .null
      pure (if comp.truthy then c + 1 else c)) 0
    pure (acc.1 + n, acc.2 + c)) (0, 0)

/-- `AgentOrchestrator._calculate_stats`. -/
def calculateStats (plans applications feedback : List Json) : Except PyErr Json := do
  let counts ← calculateTaskCounts plans
  let active ← applications.foldlM (fun (c : Nat) a => do
    let st ← a.getD "status" .null
    pure (if st.eqStr "applied" || st.eqStr "interviewing" then c + 1 else c)) 0
  pure (.obj [
    ("total_plans", .num (plans.length : ℚ)),
    ("total_tasks", .num (counts.1 : ℚ)),
    ("completed_tasks", .num (counts.2 : ℚ)),
    ("completion_rate",
      if counts.1 > 0 then .num ((pyRound ((counts.2 : ℚ) / (counts.1 : ℚ) * 100) : ℤ) : ℚ)
      else .num 0),
    ("total_applications", .num (applications.length : ℚ)),
    ("active_applications", .num (active : ℚ)),
    ("feedback_count", .num (feedback.length : ℚ))])

/-- The snapshot dict `observe_user_state` assembles from the per-user
query results (`goalId` is `primary_goal['id'] if primary_goal else
None`). -/
def observedState (db : Db) (userId : Int) (goalId : Json) (stats : Json) : Json :=
  Json.obj [
    ("user_id", .num (userId : ℚ)),
    ("profile", db.getUserProfile userId),
    ("skills", .arr (db.getUserSkills userId)),
    ("goals", .arr (db.getUserGoals userId)),
    ("primary_goal", db.getPrimaryGoal userId),
    ("skill_gaps", .arr (db.getSkillGaps userId goalId)),
    ("plans", .arr (db.getUserPlans userId goalId)),
    ("recent_feedback", .arr (db.getUserFeedback userId 5)),
    ("applications", .arr (db.getApplications userId)),
    ("stats", stats)]

/-- `AgentOrchestrator.observe_user_state`: re-reads every store view,
assembles the snapshot, records `current_user_id` and writes the snapshot
into `session_memory` (which no reader consults). -/
def observeUserState (orch : Orch) (db : Db) (userId : Int) :
    Except PyErr (Orch × Json) := do
  let goalId ← if (db.getPrimaryGoal userId).truthy
    then (db.getPrimaryGoal userId).item "id" else pure Json.null
  let stats ← calculateStats (db.getUserPlans userId goalId)
    (db.getApplications userId) (db.getUserFeedback userId 5)
  pure (Orch.mk (some userId)
      (assocSet orch.sessionMemory userId (observedState db userId goalId stats)),
    observedState db userId goalId stats)

/-- `Database.create_agent_session`: insert a `processing` row, return its
id (`lastrowid`, modelled as the new row count). -/
def createAgentSession (db : Db) (u : Int) (ty : String) (input : Json) : Db × Int :=
  let row : SessionRow :=
    { userId := u, sessionType := ty, inputData := input,
      outputData := none, thoughts := .str "", status := "processing" }
  ({ db with sessions := db.sessions ++ [row] }, (db.sessions.length : Int) + 1)

/-- `UPDATE agent_sessions ... WHERE id = sid`: ids are handed out
sequentially by `create_agent_session`, so the row with id `sid` is the
row at index `sid - 1`. -/
def setSessionRow : List SessionRow → Nat → Json → Json → String → List SessionRow
  | [], _, _, _, _ => []
  | r :: rest, 0, out, th, st =>
    { r with outputData := some out, thoughts := th, status := st } :: rest
  | r :: rest, Nat.succ i, out, th, st => r :: setSessionRow rest i out th st

/-- `Database.update_agent_session`. -/
def updateAgentSession (db : Db) (sid : Int) (output : Json) (thoughts : Json)
    (status : String) : Db :=
  { db with sessions := setSessionRow db.sessions (sid - 1).toNat output thoughts status }

/-- The structured error object of `run_agent`'s `except` branch
(`str(e)` and the traceback text are opaque renderings). -/
def errorResultOf (e : PyErr) : Json :=
  .obj [("status", .str "error"), ("message", .str (pyErrMsg e)),
    ("traceback", .str ("Traceback: " ++ pyErrMsg e))]

/-- `AgentOrchestrator.run_agent`'s error boundary, with the
observe/dispatch/store/adapt composite abstracted as `body` (which
threads the store and either returns the handler result or raises).
Partial store writes made by `body` before a raise persist, as in
Python. -/
def runAgentCore (sys : Sys) (userId : Int) (eventType : String) (payload : Json)
    (now : String) (body : Sys → Sys × Except PyErr Json) : Sys × Json :=
  let payload1 := if payload.truthy then payload else .obj []
  let (db1, sid) := createAgentSession sys.db userId eventType payload1
  let sys1 := { sys with db := db1 }
  let (sys2, outcome) := body sys1
  let afterBody : Except PyErr (Json × Json) := do
    let result ← outcome
    let thoughtsJ ← result.getD "agent_thoughts" (.str "")
    pure (result, thoughtsJ)
  match afterBody with
  | .ok rt =>
    let db3 := updateAgentSession sys2.db sid rt.1 rt.2 "completed"
    ({ sys2 with db := db3 },
      Json.obj [("status", .str "success"), ("event", .str eventType),
        ("result", rt.1),
        ("agent_state", .obj [("user_id", .num (userId : ℚ)),
          ("timestamp", .str now), ("session_id", .num (sid : ℚ))])])
  | .error e =>
    let er := errorResultOf e
    ({ sys2 with db := updateAgentSession sys2.db sid er (.str (pyErrMsg e)) "failed" },
      er)

/-- `AgentOrchestrator._handle_skill_gap_event`: run the gap analysis,
persist the gaps only when the agent reported `success` and a goal id is
present, and assemble the handler result. -/
def handleSkillGapEvent (llmRes : Option Json) (db : Db) (state payload : Json) :
    Except PyErr (Db × Json) := do
  let skillsJ ← state.getD "skills" (.arr [])
  let primaryGoal ← state.getD "primary_goal" (.obj [])
  let trP ← payload.getD "target_role" .null
  let targetRoleJ ←
    if trP.truthy then pure trP
    else primaryGoal.getD "target_role" (.str "Software Developer")
  let targetRole ←
    match targetRoleJ with
    | .str s => pure s
    | _ => .error .attributeError
  let skills ← skillsJ.pyIterate
  let gapResult ← SkillGapAgent.analyzeGaps llmRes skills targetRole
  let userIdJ ← state.getD "user_id" .null
  let goalIdJ ← primaryGoal.getD "id" .null
  let statusJ ← gapResult.getD "status" .null
  let db1 ←
    if statusJ.eqStr "success" && goalIdJ.truthy then do
      let analysis ← gapResult.getD "analysis" (.obj [])
      let gapsJ ← analysis.getD "skill_gaps" (.arr [])
      let u ← pyInt userIdJ
      let g ← pyInt goalIdJ
      let gaps ← gapsJ.pyIterate
      let table ← saveSkillGaps db.gapTable u g gaps
      pure { db with gapTable := table }
    else pure db
  let analysis ← gapResult.getD "analysis" (.obj [])
  let skillGapsOut ← analysis.getD "skill_gaps" (.arr [])
  let readinessOut ← analysis.getD "readiness_percentage" (.num 0)
  let criticalOut ← analysis.getD "critical_path" (.arr [])
  pure (db1, Json.obj [
    ("status", .str "success"),
    ("analysis", analysis),
    ("skill_gaps", skillGapsOut),
    ("readiness_percentage", readinessOut),
    ("critical_path", criticalOut),
    ("agent_thoughts", .str ("Analyzed " ++ toString skills.length ++
      " skills against " ++ targetRole ++ " requirements."))])

/-- The `run_agent` body for the `skill_gap` event: observe, retrieve
memories (read-only, errors swallowed), dispatch to the handler, store
the agent-result memory (errors swallowed); the adapt step does not fire
for this event type. -/
def skillGapBody (llmRes : Option Json) (userId : Int) (payload : Json)
    (sys : Sys) : Sys × Except PyErr Json :=
  match observeUserState sys.orch sys.db userId with
  | .error e => (sys, .error e)
  | .ok os =>
    let sys1 := { sys with orch := os.1 }
    match handleSkillGapEvent llmRes sys1.db os.2 payload with
    | .error e => (sys1, .error e)
    | .ok dr =>
      let sys2 := { sys1 with db := dr.1 }
      let sys3 :=
        match dr.2.getD "agent_thoughts" (.str "Completed") with
        | .ok t => { sys2 with db := { sys2.db with memories := sys2.db.memories ++
            [(userId, "Agent skill_gap: " ++ pyStrLite t)] } }
        | .error _ => sys2
      (sys3, .ok dr.2)

/-- `run_agent("skill_gap", ...)`. -/
def runAgentSkillGap (sys : Sys) (userId : Int) (payload : Json)
    (llmRes : Option Json) (now : String) : Sys × Json :=
  runAgentCore sys userId "skill_gap" payload now (skillGapBody llmRes userId payload)

/-! ### The end-to-end scenario store -/

def backendGoalRow : Json :=
  .obj [("id", .num 1), ("user_id", .num 1), ("target_role", .str "Backend Developer"),
    ("priority", .str "high"), ("status", .str "active")]

def pythonSkillRow : Json :=
  .obj [("id", .num 1), ("user_id", .num 1), ("skill_name", .str "Python"),
    ("level", .str "advanced")]

/-- A store holding user 1 with the scenario's single Python skill and an
active Backend Developer goal, and nothing else. -/
def scenarioDb : Db :=
  { getUserProfile := fun u => if u = 1 then .obj [("id", .num 1), ("name", .str "Test User")] else .null
  , getUserSkills := fun u => if u = 1 then [pythonSkillRow] else []
  , getUserGoals := fun u => if u = 1 then [backendGoalRow] else []
  , getPrimaryGoal := fun u => if u = 1 then backendGoalRow else .null
  , getSkillGaps := fun _ _ => []
  , getUserPlans := fun _ _ => []
  , getUserFeedback := fun _ _ => []
  , getApplications := fun _ => []
  , searchMemories := fun _ _ => []
  , sessions := []
  , memories := []
  , gapTable := [] }

def scenarioSys : Sys :=
  { orch := { currentUserId := none, sessionMemory := [] }, db := scenarioDb }

def scenarioPayload : Json := .obj [("target_role", .str "Backend Developer")]

/-- A transport on which every completion request raises. -/
def failingTransport : Transport := fun _ => .error ()

/-- The skill-gap names of the envelope's `result.skill_gaps` list. -/
def envGapNames (env : Json) : List String :=
  match (env.lookupTop "result").bind (fun r => r.lookupTop "skill_gaps") with
  | some (.arr gs) => gs.filterMap (fun g =>
      match g.lookupTop "skill_name" with
      | some (.str s) => some s
      | _ => none)
  | _ => []

/-- The fixed resume schema's top-level keys, in the order the source
builds them. -/
def resumeSchemaKeys : List String :=
  ["header", "contact", "summary", "skills", "projects", "experience",
   "education", "certifications"]

/-- `ResumeAgent._validate_and_clean`. -/
def validateAndClean (data userProfile : Json) : Except PyErr Json := do
  let header ← cleanHeader data userProfile
  let contact ← cleanContact data userProfile
  let summary ← data.getD "summary" (.str "")
  let skills ← cleanSkills data
  let projects ← cleanProjects data
  let experience ← cleanExperience data
  let education ← cleanEducation data
  let certifications ← cleanCertifications data
  pure (.obj [("header", header), ("contact", contact), ("summary", summary),
    ("skills", .arr skills), ("projects", .arr projects),
    ("experience", .arr experience), ("education", .arr education),
    ("certifications", .arr certifications)])

/-! ## Concrete inputs and claim-side reference definitions -/

/-- The claim's recoverable input: a complete top-level object followed by
trailing garbage. -/
def braceExample1 : String := "\x7b\"a\":1,\"b\":\x7b\"c\":2\x7d\x7d,\"garbage"

/-- The claim's non-recoverable input: the top-level object never
closes. -/
def braceExample2 : String := "\x7b\"a\":1,\"b\":\x7b\"c\":2\x7d,\"d\":"

/-- A model output whose `skills[].level` is a non-numeric string: the
`int(...)` coercion of `_validate_and_clean` raises `ValueError` on it. -/
def dataBadLevel : Json :=
  .obj [("skills", .arr [.obj [("name", .str "X"), ("level", .str "advanced")]])]

/-- A model output whose `skills[].level` is the float 43.5 (a wrong type
that `int(...)` does coerce). -/
def dataFloatLevel : Json :=
  .obj [("skills", .arr [.obj [("name", .str "Python"), ("level", .num (87 / 2))]])]

/-- Modelled from the claim's words (reference, not from the source): the
number of weekly plans the claim asserts — the timeline's numeric prefix,
multiplied by 4 when the string contains "month", defaulting to 12 when
no numeric prefix exists. -/
def claimDerivedWeeks (timeline : String) : Nat :=
  match pySplit timeline with
  | p :: _ =>
    if pyIsdigit p then
      if strContainsSub timeline.toLower "month" then digitsToNat p.data * 4
      else digitsToNat p.data
    else 12
  | [] => 12

def sqlGapJson : Json := .obj [("skill_name", .str "SQL")]

/-- Length of a fallback-roadmap result's `roadmap.weekly_plans` list. -/
def weeklyPlansLen (r : Json) : Option Nat :=
  match (r.lookupTop "roadmap").bind (fun x => x.lookupTop "weekly_plans") with
  | some (.arr l) => some l.length
  | _ => none

/-- The `i`-th (0-based) entry of a fallback-roadmap result's
`roadmap.weekly_plans` list. -/
def weeklyPlanAt (r : Json) (i : Nat) : Option Json :=
  match (r.lookupTop "roadmap").bind (fun x => x.lookupTop "weekly_plans") with
  | some (.arr l) => l.get? i
  | _ => none

/-- The envelope returned by the end-to-end scenario:
`run_agent("skill_gap", user_id=1, payload={"target_role": "Backend
Developer"})` with the model fully unavailable. -/
def scenarioEnvelope : Json :=
  (runAgentSkillGap scenarioSys 1 scenarioPayload none "2026-02-03T00:00:00").2

/-- The system state after the end-to-end scenario run. -/
def scenarioSysAfter : Sys :=
  (runAgentSkillGap scenarioSys 1 scenarioPayload none "2026-02-03T00:00:00").1

def gapJsonA : Json := .obj [("skill_name", .str "A")]

def gapJsonB : Json := .obj [("skill_name", .str "B")]

def gapRowA : GapRow :=
  { userId := 1, goalId := 1, skillName := .str "A", currentLevel := .str "none",
    requiredLevel := .str "intermediate", priority := .str "medium",
    learningResources := none, estimatedLearningTime := .null, learningApproach := .null }

def gapRowB : GapRow :=
  { userId := 1, goalId := 1, skillName := .str "B", currentLevel := .str "none",
    requiredLevel := .str "intermediate", priority := .str "medium",
    learningResources := none, estimatedLearningTime := .null, learningApproach := .null }

/-- The cleaned resume `_validate_and_clean` produces for
`dataFloatLevel` with an empty profile: `int(43.5)` truncates to 43. -/
def c3CleanedExample : Json :=
  .obj [("header", .obj [("name", .str ""), ("title", .str "")]),
    ("contact", .obj [("phone", .str ""), ("email", .str ""), ("address", .str ""),
      ("website", .str ""), ("linkedin", .str "")]),
    ("summary", .str ""),
    ("skills", .arr [.obj [("name", .str "Python"), ("level", .num 43)]]),
    ("projects", .arr []), ("experience", .arr []), ("education", .arr []),
    ("certifications", .arr [])]

/-- A `run_agent` body that raises. -/
def c7WitnessBody : Sys → Sys × Except PyErr Json := fun s => (s, .error .valueError)

/-- A plan row with four tasks, three of them completed. -/
def planRow34 : Json :=
  .obj [("tasks", .arr [
    .obj [("completed", .bool true)], .obj [("completed", .bool true)],
    .obj [("completed", .bool true)], .obj [("completed", .bool false)]])]

/-- The stats `_calculate_stats` computes for `[planRow34]` and no
applications or feedback: completion rate `round(3/4*100) = 75`. -/
def c10Stats : Json :=
  .obj [("total_plans", .num 1), ("total_tasks", .num 4), ("completed_tasks", .num 3),
    ("completion_rate", .num 75), ("total_applications", .num 0),
    ("active_applications", .num 0), ("feedback_count", .num 0)]

/-! # Theorems -/

/-! ## Helper lemmas -/

theorem exceptBind_ok {ε α β : Type} {x : Except ε α} {f : α → Except ε β} {b : β} :
    x >>= f = .ok b ↔ ∃ a, x = .ok a ∧ f a = .ok b := by
  cases x <;> simp [Bind.bind, Except.bind]

theorem callLoop_eq_firstUsable (models : List String) (t : Transport) :
    callLoop models t = firstUsableResponse models t := by
  induction models with
  | nil => rfl
  | cons m rest ih =>
    unfold callLoop firstUsableResponse
    rw [List.findSome?_cons]
    cases h : usableText (t m) with
    | none => simp only [h]; exact ih
    | some s => simp [h]

theorem callLoopTrace_fst (models : List String) (t : Transport) :
    (callLoopTrace models t).1 = callLoop models t := by
  induction models with
  | nil => rfl
  | cons m rest ih =>
    unfold callLoopTrace callLoop
    cases h : usableText (t m) with
    | none => simp only [h]; exact ih
    | some s => simp [h]

theorem callLoopTrace_take (models : List String) (t : Transport) :
    ∃ k, (callLoopTrace models t).2 = models.take k := by
  induction models with
  | nil => exact ⟨0, rfl⟩
  | cons m rest ih =>
    unfold callLoopTrace
    cases h : usableText (t m) with
    | some s => exact ⟨1, by simp [h]⟩
    | none =>
      obtain ⟨k, hk⟩ := ih
      exact ⟨k + 1, by simp [h, hk]⟩

theorem callLoopTrace_head (m : String) (fallbacks : List String) (t : Transport) :
    (callLoopTrace (m :: fallbacks) t).2.head? = some m := by
  unfold callLoopTrace
  cases h : usableText (t m) <;> simp [h]

theorem callLoop_none_of_unusable (models : List String) (t : Transport)
    (h : ∀ m ∈ models, usableText (t m) = none) : callLoop models t = none := by
  induction models with
  | nil => rfl
  | cons m rest ih =>
    unfold callLoop
    rw [h m (List.mem_cons_self m rest)]
    exact ih (fun x hx => h x (List.mem_cons_of_mem m hx))

/-! ## C6 -/

/-- C6: `call` tries the primary model followed by each configured
fallback model in order, issuing one request per candidate, skipping any
candidate that raises or returns empty text, and returns the first
non-empty response text; if every candidate is exhausted, `call` and
`call_json` return `None` while `chat` returns the fixed apology string;
the primary model is attempted first on every fresh top-level call (the
loop reads no cross-call state). -/
theorem c6_model_fallback (primary : String) (fallbacks : List String) (t : Transport) :
    LLMClient.call primary fallbacks t = firstUsableResponse (primary :: fallbacks) t ∧
    (callLoopTrace (primary :: fallbacks) t).2.head? = some primary ∧
    (∃ k, (callLoopTrace (primary :: fallbacks) t).2 = (primary :: fallbacks).take k) ∧
    (callLoopTrace (primary :: fallbacks) t).1 = LLMClient.call primary fallbacks t ∧
    ((∀ m ∈ primary :: fallbacks, usableText (t m) = none) →
      LLMClient.call primary fallbacks t = none ∧
      LLMClient.callJson primary fallbacks t = none ∧
      LLMClient.chat primary fallbacks t = chatApology) := by
  refine ⟨callLoop_eq_firstUsable _ t, callLoopTrace_head _ _ t, callLoopTrace_take _ t,
    callLoopTrace_fst _ t, fun h => ?_⟩
  have hc : LLMClient.call primary fallbacks t = none :=
    callLoop_none_of_unusable _ t h
  refine ⟨hc, ?_, ?_⟩
  · unfold LLMClient.callJson
    rw [hc]
  · unfold LLMClient.chat
    rw [show callLoop (primary :: fallbacks) t = none from hc]

/-- C6 witness: on an all-raising transport with primary "gpt-a" and one
fallback "gpt-b", `call` and `call_json` return `None` and `chat` the
apology. -/
theorem c6_model_fallback_witness :
    (∀ m ∈ "gpt-a" :: ["gpt-b"], usableText (failingTransport m) = none) ∧
    (LLMClient.call "gpt-a" ["gpt-b"] failingTransport = none ∧
     LLMClient.callJson "gpt-a" ["gpt-b"] failingTransport = none ∧
     LLMClient.chat "gpt-a" ["gpt-b"] failingTransport = chatApology) :=
  ⟨fun _ _ => rfl, (c6_model_fallback "gpt-a" ["gpt-b"] failingTransport).2.2.2.2
    (fun _ _ => rfl)⟩

/-! ## C5 -/

/-- C5: the brace-balance truncation tier recovers exactly the prefix of
the input up to the last offset at which the running unmatched-brace
count (tracked outside of string literals, respecting escapes) returned
to zero, and strict-parses that prefix; a complete top-level object
followed by trailing garbage is recovered up to its closing brace, while
an input whose top-level object never closes is not recovered by this
tier. -/
theorem c5_brace_truncation :
    (∀ s : String,
      (0 < (tryFixScan s).lastValidPos →
        tryFixJson s =
          Json.parse (String.mk (s.data.take (tryFixScan s).lastValidPos))) ∧
      ((tryFixScan s).lastValidPos = 0 → tryFixJson s = none)) ∧
    tryFixJson braceExample1 =
      some (Json.obj [("a", Json.num 1), ("b", Json.obj [("c", Json.num 2)])]) ∧
    tryFixJson braceExample2 = none := by
  refine ⟨fun s => ⟨fun h => ?_, fun h => ?_⟩, ?_, ?_⟩
  · show (if 0 < (tryFixScan s).lastValidPos then
      Json.parse (String.mk (s.data.take (tryFixScan s).lastValidPos)) else none) = _
    rw [if_pos h]
  · show (if 0 < (tryFixScan s).lastValidPos then
      Json.parse (String.mk (s.data.take (tryFixScan s).lastValidPos)) else none) = _
    rw [if_neg (by omega)]
  · with_unfolding_all rfl
  · with_unfolding_all rfl

/-- C5 witness: the recoverable example has a positive last
balanced-prefix offset and the tier parses exactly that prefix. -/
theorem c5_brace_truncation_witness :
    0 < (tryFixScan braceExample1).lastValidPos ∧
    tryFixJson braceExample1 =
      Json.parse (String.mk (braceExample1.data.take (tryFixScan braceExample1).lastValidPos)) :=
  ⟨by with_unfolding_all decide,
   (c5_brace_truncation.1 braceExample1).1 (by with_unfolding_all decide)⟩

/-! ## C4 -/

/-- C4 counterexample: after a strict-parse failure the source attempts
brace-balance truncation (`_try_fix_json`) first, not the Unicode
normalization pass, so the claimed attempt order
[normalization, brace-balance, partial extraction] is wrong on the code. -/
theorem c4_tier_order_counterexample :
    repairAttempts "garbage" =
      [RepairTier.braceFix, RepairTier.unicodeNorm, RepairTier.partialExtract] ∧
    ¬ ((repairAttempts "garbage").head? = some RepairTier.unicodeNorm) := by
  have h : repairAttempts "garbage" =
      [RepairTier.braceFix, RepairTier.unicodeNorm, RepairTier.partialExtract] := by
    with_unfolding_all rfl
  exact ⟨h, by rw [h]; decide⟩

/-- C4 (amended): when the fence-stripped text fails strict parsing, the
repair tiers are attempted in source order: brace-balance truncation
first, then Unicode normalization, then partial-field extraction; each
later tier is attempted exactly when the earlier tiers produced nothing
usable, and a usable brace-fix result is returned directly. -/
theorem c4_tier_order (t : String) (h : Json.parse t = none) :
    (repairAttempts t).head? = some RepairTier.braceFix ∧
    (RepairTier.unicodeNorm ∈ repairAttempts t ↔ truthyOpt (tryFixJson t) = none) ∧
    (RepairTier.partialExtract ∈ repairAttempts t ↔
      truthyOpt (tryFixJson t) = none ∧ truthyOpt (aggressiveClean t) = none) ∧
    (∀ v, truthyOpt (tryFixJson t) = some v → recoverParse t = v) := by
  unfold repairAttempts recoverParse
  rw [h]
  cases h2 : truthyOpt (tryFixJson t) with
  | some v => simp [h2]
  | none =>
    cases h3 : truthyOpt (aggressiveClean t) with
    | some v => simp [h2, h3]
    | none => simp [h2, h3]

/-- C4 witness: a garbage input reaches the repair tiers and the first
attempted tier is brace-balance truncation. -/
theorem c4_tier_order_witness :
    Json.parse "garbage" = none ∧
    (repairAttempts "garbage").head? = some RepairTier.braceFix :=
  ⟨by with_unfolding_all rfl,
   (c4_tier_order "garbage" (by with_unfolding_all rfl)).1⟩

/-! ## C1 -/

/-- C1 counterexample: the JSON-recovery parse step applied to the
response text "3" returns the number 3, not an object, so "returns an
object" fails as stated. -/
theorem c1_parse_step_counterexample :
    recoverParse (stripFences "3") = Json.num 3 ∧
    (recoverParse (stripFences "3")).isObj = false := by
  constructor
  · with_unfolding_all rfl
  · with_unfolding_all rfl

/-- C1 (amended): the recovery parse step is a total function of the
response text (it returns a JSON value and never raises, though a
strictly parseable non-object input is returned as that non-object
value); when every repair tier fails or yields nothing usable it returns
the fixed minimal placeholder, whose analysis array fields are empty
lists (and whose `confidence_boosters` holds one fixed sentence). -/
theorem c1_parse_step_total (s : String)
    (h1 : Json.parse (stripFences s) = none)
    (h2 : truthyOpt (tryFixJson (stripFences s)) = none)
    (h3 : truthyOpt (aggressiveClean (stripFences s)) = none)
    (h4 : Json.parse (partialFixText (stripFences s)) = none) :
    recoverParse (stripFences s) = interviewPrepPlaceholder ∧
    interviewPrepPlaceholder.isObj = true ∧
    interviewPrepPlaceholder.lookupTop "key_skills_to_highlight" = some (.arr []) ∧
    interviewPrepPlaceholder.lookupTop "suggested_projects" = some (.arr []) ∧
    interviewPrepPlaceholder.lookupTop "interview_preparation_tips" = some (.arr []) ∧
    interviewPrepPlaceholder.lookupTop "common_questions" = some (.arr []) ∧
    interviewPrepPlaceholder.lookupTop "technical_topics_to_study" = some (.arr []) ∧
    interviewPrepPlaceholder.lookupTop "confidence_boosters" =
      some (.arr [.str "You have relevant skills for this role"]) := by
  refine ⟨?_, by rfl, by rfl, by rfl, by rfl, by rfl, by rfl, by rfl⟩
  unfold recoverParse extractPartialJson
  rw [h1, h2, h3, h4]

/-- C1 witness: garbage input falls through every tier to the
placeholder. -/
theorem c1_parse_step_total_witness :
    Json.parse (stripFences "garbage") = none ∧
    recoverParse (stripFences "garbage") = interviewPrepPlaceholder :=
  ⟨by with_unfolding_all rfl,
   (c1_parse_step_total "garbage" (by with_unfolding_all rfl) (by with_unfolding_all rfl)
     (by with_unfolding_all rfl) (by with_unfolding_all rfl)).1⟩

/-! ## C8 -/

theorem gapToRow_key (u g : Int) (gap : Json) (r : GapRow)
    (h : gapToRow u g gap = .ok r) : r.userId = u ∧ r.goalId = g := by
  unfold gapToRow at h
  simp only [exceptBind_ok] at h
  obtain ⟨lr, _, sn, _, cl, _, rl, _, pr, _, et, _, la, _, hp⟩ := h
  simp only [pure, Except.pure, Except.ok.injEq] at hp
  subst hp
  exact ⟨rfl, rfl⟩

theorem gapRows_key (u g : Int) : ∀ (gaps : List Json) (rows : List GapRow),
    gaps.mapM (gapToRow u g) = .ok rows → ∀ r ∈ rows, r.userId = u ∧ r.goalId = g := by
  intro gaps
  induction gaps with
  | nil =>
    intro rows h
    simp only [List.mapM_nil, pure, Except.pure, Except.ok.injEq] at h
    subst h
    intro r hr
    exact absurd hr (List.not_mem_nil r)
  | cons gap rest ih =>
    intro rows h
    rw [List.mapM_cons] at h
    simp only [exceptBind_ok] at h
    obtain ⟨r0, hr0, rows0, hrows0, hp⟩ := h
    simp only [pure, Except.pure, Except.ok.injEq] at hp
    subst hp
    intro r hr
    rcases List.mem_cons.mp hr with rfl | hm
    · exact gapToRow_key u g gap r hr0
    · exact ih rows0 hrows0 r hm

theorem filter_pos_of_filter_neg {α : Type} (p : α → Bool) (l : List α) :
    (l.filter (fun r => !(p r))).filter p = [] := by
  induction l with
  | nil => rfl
  | cons x xs ih => cases hx : p x <;> simp [List.filter_cons, hx, ih]

theorem filter_neg_idem {α : Type} (p : α → Bool) (l : List α) :
    (l.filter (fun r => !(p r))).filter (fun r => !(p r)) = l.filter (fun r => !(p r)) := by
  induction l with
  | nil => rfl
  | cons x xs ih => cases hx : p x <;> simp [List.filter_cons, hx, ih]

/-- C8: saving skill gaps twice for the same (user, goal) leaves exactly
the second gap set persisted for that pair — `save_skill_gaps` deletes
every existing row of the pair before inserting — and rows of other
(user, goal) pairs are untouched. -/
theorem c8_gap_replace (table : List GapRow) (u g : Int) (gaps1 gaps2 : List Json)
    (t1 t2 rows2 : List GapRow)
    (h1 : saveSkillGaps table u g gaps1 = .ok t1)
    (h2 : saveSkillGaps t1 u g gaps2 = .ok t2)
    (hr : gaps2.mapM (gapToRow u g) = .ok rows2) :
    t2.filter (fun r => r.userId == u && r.goalId == g) = rows2 ∧
    t2.filter (fun r => !(r.userId == u && r.goalId == g)) =
      table.filter (fun r => !(r.userId == u && r.goalId == g)) := by
  unfold saveSkillGaps at h1 h2
  simp only [exceptBind_ok] at h1 h2
  obtain ⟨rows1, hm1, hp1⟩ := h1
  obtain ⟨rows2x, hm2, hp2⟩ := h2
  simp only [pure, Except.pure, Except.ok.injEq] at hp1 hp2
  subst hp1
  subst hp2
  rw [hr] at hm2
  injection hm2 with hm2
  subst hm2
  have hkey1 : ∀ r ∈ rows1, r.userId = u ∧ r.goalId = g := gapRows_key u g gaps1 rows1 hm1
  have hkey2 : ∀ r ∈ rows2, r.userId = u ∧ r.goalId = g := gapRows_key u g gaps2 rows2 hr
  constructor
  · rw [List.filter_append, filter_pos_of_filter_neg, List.nil_append]
    apply List.filter_eq_self.mpr
    intro r hrmem
    obtain ⟨hu, hg⟩ := hkey2 r hrmem
    simp [hu, hg]
  · rw [List.filter_append, filter_neg_idem, List.filter_append, filter_neg_idem]
    have h2nil : rows2.filter (fun r => !(r.userId == u && r.goalId == g)) = [] := by
      apply List.filter_eq_nil_iff.mpr
      intro r hrmem
      obtain ⟨hu, hg⟩ := hkey2 r hrmem
      simp [hu, hg]
    have h1nil : rows1.filter (fun r => !(r.userId == u && r.goalId == g)) = [] := by
      apply List.filter_eq_nil_iff.mpr
      intro r hrmem
      obtain ⟨hu, hg⟩ := hkey1 r hrmem
      simp [hu, hg]
    rw [h1nil, h2nil, List.append_nil, List.append_nil]

/-- C8 witness: two saves for (user 1, goal 1) on an empty table leave
exactly the second gap set. -/
theorem c8_gap_replace_witness :
    [gapRowB].filter (fun r => r.userId == 1 && r.goalId == 1) = [gapRowB] ∧
    [gapRowB].filter (fun r => !(r.userId == 1 && r.goalId == 1)) =
      ([] : List GapRow).filter (fun r => !(r.userId == 1 && r.goalId == 1)) := by
  have h1 : saveSkillGaps [] 1 1 [gapJsonA] = .ok [gapRowA] := by
    with_unfolding_all rfl
  have h2 : saveSkillGaps [gapRowA] 1 1 [gapJsonB] = .ok [gapRowB] := by
    with_unfolding_all rfl
  have hr : [gapJsonB].mapM (gapToRow 1 1) = .ok [gapRowB] := by
    with_unfolding_all rfl
  exact c8_gap_replace [] 1 1 [gapJsonA] [gapJsonB] [gapRowA] [gapRowB] [gapRowB] h1 h2 hr

/-! ## C3 -/

/-- Every entry built by the skills-cleaning loop is a `{name, level}`
dict whose level is an integer-valued number. -/
theorem cleanSkillsList_levels : ∀ (items out : List Json),
    cleanSkillsList items = .ok out →
    ∀ sk ∈ out, ∃ name lvl, sk = Json.obj [("name", name), ("level", Json.num lvl)] ∧
      lvl.den = 1 := by
  intro items
  induction items with
  | nil =>
    intro out h
    simp only [cleanSkillsList, Except.ok.injEq] at h
    subst h
    intro sk hsk
    exact absurd hsk (List.not_mem_nil sk)
  | cons sk rest ih =>
    intro out h
    cases sk with
    | obj fields =>
      have h' : (do
          let lvl ← pyInt ((Json.lookupField fields "level").getD (.num 50))
          let tail ← cleanSkillsList rest
          pure (Json.obj [("name", (Json.lookupField fields "name").getD (.str "")),
            ("level", .num (lvl : ℚ))] :: tail)) = .ok out := h
      simp only [exceptBind_ok] at h'
      obtain ⟨lvl, hlvl, tail, htail, hp⟩ := h'
      simp only [pure, Except.pure, Except.ok.injEq] at hp
      subst hp
      intro x hx
      rcases List.mem_cons.mp hx with rfl | hm
      · exact ⟨_, _, rfl, Rat.den_intCast lvl⟩
      · exact ih tail htail x hm
    | str s =>
      have h' : (do
          let tail ← cleanSkillsList rest
          pure (Json.obj [("name", .str s), ("level", Json.num 70)] :: tail)) = .ok out := h
      simp only [exceptBind_ok] at h'
      obtain ⟨tail, htail, hp⟩ := h'
      simp only [pure, Except.pure, Except.ok.injEq] at hp
      subst hp
      intro x hx
      rcases List.mem_cons.mp hx with rfl | hm
      · exact ⟨_, _, rfl, by with_unfolding_all rfl⟩
      · exact ih tail htail x hm
    | null => exact ih out h
    | bool b => exact ih out h
    | num q => exact ih out h
    | arr elems => exact ih out h

theorem cleanSkills_levels (data : Json) (out : List Json)
    (h : cleanSkills data = .ok out) :
    ∀ sk ∈ out, ∃ name lvl, sk = Json.obj [("name", name), ("level", Json.num lvl)] ∧
      lvl.den = 1 := by
  unfold cleanSkills at h
  simp only [exceptBind_ok] at h
  obtain ⟨raw, _, items, _, hclean⟩ := h
  exact cleanSkillsList_levels items out hclean

/-- C3 counterexample: a model output whose `skills[].level` is the
string "advanced" makes `_validate_and_clean` raise `ValueError` in
`int(...)` instead of producing a schema-shaped object. -/
theorem c3_resume_schema_counterexample :
    validateAndClean dataBadLevel (Json.obj []) = .error PyErr.valueError := by
  with_unfolding_all rfl

/-- C3 (amended): whenever `_validate_and_clean` returns (it can raise,
e.g. on a non-numeric string `skills[].level`), the returned object's
top-level keys are exactly the fixed resume schema and every
`skills[].level` value is an integer. -/
theorem c3_resume_schema (data profile r : Json)
    (h : validateAndClean data profile = .ok r) :
    r.topKeys = resumeSchemaKeys ∧
    ∃ skills, r.lookupTop "skills" = some (.arr skills) ∧
      ∀ sk ∈ skills, ∃ name lvl,
        sk = Json.obj [("name", name), ("level", Json.num lvl)] ∧ lvl.den = 1 := by
  unfold validateAndClean at h
  simp only [exceptBind_ok] at h
  obtain ⟨header, hh, contact, hc, summary, hsum, skills, hsk, projects, hp,
    experience, he, education, hed, certifications, hcert, hr⟩ := h
  simp only [pure, Except.pure, Except.ok.injEq] at hr
  subst hr
  refine ⟨rfl, skills, by with_unfolding_all rfl, cleanSkills_levels data skills hsk⟩

/-- C3 witness: a float level 43.5 is coerced to the integer 43 and the
schema keys hold. -/
theorem c3_resume_schema_witness :
    validateAndClean dataFloatLevel (Json.obj []) = .ok c3CleanedExample ∧
    c3CleanedExample.topKeys = resumeSchemaKeys := by
  have h : validateAndClean dataFloatLevel (Json.obj []) = .ok c3CleanedExample := by
    with_unfolding_all rfl
  exact ⟨h, (c3_resume_schema dataFloatLevel (Json.obj []) c3CleanedExample h).1⟩

/-! ## C7 -/

theorem setSessionRow_append (s0 : List SessionRow) (row : SessionRow)
    (out th : Json) (st : String) :
    setSessionRow (s0 ++ [row]) s0.length out th st =
      s0 ++ [{ row with outputData := some out, thoughts := th, status := st }] := by
  induction s0 with
  | nil => rfl
  | cons r rest ih => simp [setSessionRow, List.length_cons, ih]

/-- C7: `run_agent` never propagates an exception raised while handling
the event: it is a total function of its inputs; when the body raises,
the session row created for this invocation ends with status "failed"
and the structured error object (status "error") is returned; when no
exception escapes, the envelope has top-level status "success" wrapping
the handler result (which may itself come from a deterministic
fallback), and the session row ends "completed". -/
theorem c7_error_boundary (sys : Sys) (userId : Int) (eventType : String)
    (payload : Json) (now : String) (body : Sys → Sys × Except PyErr Json)
    {sys2 : Sys} {outcome : Except PyErr Json}
    (hbody : body { sys with db := { sys.db with sessions := sys.db.sessions ++
      [{ userId := userId, sessionType := eventType,
         inputData := if payload.truthy then payload else Json.obj [],
         outputData := none, thoughts := Json.str "", status := "processing" }] } } =
      (sys2, outcome))
    (hsess : sys2.db.sessions = sys.db.sessions ++
      [{ userId := userId, sessionType := eventType,
         inputData := if payload.truthy then payload else Json.obj [],
         outputData := none, thoughts := Json.str "", status := "processing" }]) :
    (∀ e, outcome = .error e →
      (runAgentCore sys userId eventType payload now body).2 = errorResultOf e ∧
      (errorResultOf e).lookupTop "status" = some (.str "error") ∧
      ((runAgentCore sys userId eventType payload now body).1.db.sessions.map
        SessionRow.status).get? sys.db.sessions.length = some "failed") ∧
    (∀ r th, outcome = .ok r → r.getD "agent_thoughts" (.str "") = .ok th →
      (runAgentCore sys userId eventType payload now body).2 =
        Json.obj [("status", .str "success"), ("event", .str eventType), ("result", r),
          ("agent_state", .obj [("user_id", .num (userId : ℚ)),
            ("timestamp", .str now),
            ("session_id", .num (((sys.db.sessions.length : Int) + 1 : Int) : ℚ))])] ∧
      ((runAgentCore sys userId eventType payload now body).1.db.sessions.map
        SessionRow.status).get? sys.db.sessions.length = some "completed") := by
  have hidx : (((sys.db.sessions.length : Int) + 1 - 1).toNat) = sys.db.sessions.length := by
    omega
  constructor
  · intro e he
    subst he
    refine ⟨?_, by with_unfolding_all rfl, ?_⟩
    · simp only [runAgentCore, createAgentSession]
      rw [hbody]
      rfl
    · simp only [runAgentCore, createAgentSession]
      rw [hbody]
      simp only [Bind.bind, Except.bind, updateAgentSession]
      simp only [hsess, hidx, setSessionRow_append, List.map_append, List.map_cons,
        List.map_nil]
      rw [← List.length_map sys.db.sessions SessionRow.status]
      rw [List.get?_concat_length]
  · intro r th hok hth
    subst hok
    constructor
    · simp only [runAgentCore, createAgentSession]
      rw [hbody]
      simp only [Bind.bind, Except.bind]
      rw [hth]
      rfl
    · simp only [runAgentCore, createAgentSession]
      rw [hbody]
      simp only [Bind.bind, Except.bind]
      rw [hth]
      simp only [pure, Except.pure, updateAgentSession]
      simp only [hsess, hidx, setSessionRow_append, List.map_append, List.map_cons,
        List.map_nil]
      rw [← List.length_map sys.db.sessions SessionRow.status]
      rw [List.get?_concat_length]

/-- C7 witness: a body that raises `ValueError` yields the structured
error object and a "failed" session row. -/
theorem c7_error_boundary_witness :
    (runAgentCore scenarioSys 1 "skill_gap" scenarioPayload "t" c7WitnessBody).2 =
      errorResultOf PyErr.valueError ∧
    ((runAgentCore scenarioSys 1 "skill_gap" scenarioPayload "t" c7WitnessBody).1.db.sessions.map
      SessionRow.status).get? scenarioSys.db.sessions.length = some "failed" := by
  have h := (c7_error_boundary scenarioSys 1 "skill_gap" scenarioPayload "t" c7WitnessBody
    rfl (by with_unfolding_all rfl)).1 PyErr.valueError rfl
  exact ⟨h.1, h.2.2⟩

/-! ## C10 -/

/-- The snapshot `observe_user_state` returns depends only on the store,
not on the orchestrator object's own state. -/
theorem observe_snd_const (o1 o2 : Orch) (db : Db) (u : Int) :
    Except.map Prod.snd (observeUserState o1 db u) =
    Except.map Prod.snd (observeUserState o2 db u) := by
  unfold observeUserState
  by_cases hc : (db.getPrimaryGoal u).truthy = true
  · rw [if_pos hc, if_pos hc]
    cases h1 : (db.getPrimaryGoal u).item "id" with
    | error e => rfl
    | ok gid =>
      simp only [Bind.bind, Except.bind]
      cases h2 : calculateStats (db.getUserPlans u gid) (db.getApplications u)
          (db.getUserFeedback u 5) with
      | error e => rfl
      | ok stats => rfl
  · rw [if_neg hc, if_neg hc]
    simp only [Bind.bind, Except.bind, pure, Except.pure]
    cases h2 : calculateStats (db.getUserPlans u Json.null) (db.getApplications u)
        (db.getUserFeedback u 5) with
    | error e => rfl
    | ok stats => rfl

/-- C10 counterexample: `observe_user_state` is not free of side effects
on the orchestrator object — it writes the snapshot into
`session_memory` (here growing it from zero to one entry). -/
theorem c10_observe_counterexample :
    Except.map (fun p => p.1.sessionMemory.length)
      (observeUserState { currentUserId := none, sessionMemory := [] } scenarioDb 1) =
      .ok 1 ∧ (1 : Nat) ≠ 0 :=
  ⟨by with_unfolding_all rfl, by decide⟩

/-- C10 (amended): the snapshot is a pure read aggregation of the store —
it is independent of the orchestrator object's state (so the
`session_memory` write is never read back: no caching), two consecutive
calls over an unchanged store return equal snapshots, and the derived
`stats.completion_rate` equals `round(completed_tasks/total_tasks*100)`
over all plans, 0 when there are no tasks.  The only side effects are to
the in-process `current_user_id` / `session_memory` fields; the store is
left untouched. -/
theorem c10_observe_pure :
    (∀ (o1 o2 : Orch) (db : Db) (u : Int),
      Except.map Prod.snd (observeUserState o1 db u) =
      Except.map Prod.snd (observeUserState o2 db u)) ∧
    (∀ (o : Orch) (db : Db) (u : Int) (o1 : Orch) (s1 : Json),
      observeUserState o db u = .ok (o1, s1) →
      ∀ (o2 : Orch) (s2 : Json), observeUserState o1 db u = .ok (o2, s2) → s2 = s1) ∧
    (∀ (plans apps fb : List Json) (st : Json),
      calculateStats plans apps fb = .ok st →
      ∃ counts, calculateTaskCounts plans = .ok counts ∧
        st.lookupTop "completion_rate" = some
          (if counts.1 > 0 then
            Json.num ((pyRound ((counts.2 : ℚ) / (counts.1 : ℚ) * 100) : ℤ) : ℚ)
          else Json.num 0)) := by
  refine ⟨observe_snd_const, ?_, ?_⟩
  · intro o db u o1 s1 h1 o2 s2 h2
    have h := observe_snd_const o1 o db u
    rw [h1, h2] at h
    simpa [Except.map] using h
  · intro plans apps fb st h
    unfold calculateStats at h
    simp only [exceptBind_ok] at h
    obtain ⟨counts, hc, active, hactive, hp⟩ := h
    simp only [pure, Except.pure, Except.ok.injEq] at hp
    subst hp
    exact ⟨counts, hc, by with_unfolding_all rfl⟩

/-- C10 witness: one plan with four tasks, three completed, yields
completion rate `round(3/4*100) = 75`. -/
theorem c10_observe_pure_witness :
    c10Stats.lookupTop "completion_rate" = some (Json.num 75) := by
  have hst : calculateStats [planRow34] [] [] = .ok c10Stats := by
    with_unfolding_all rfl
  obtain ⟨counts, hc, hlook⟩ := c10_observe_pure.2.2 [planRow34] [] [] c10Stats hst
  have hc2 : calculateTaskCounts [planRow34] = .ok (4, 3) := by
    with_unfolding_all rfl
  rw [hc2] at hc
  injection hc with hc
  subst hc
  exact hlook.trans (by with_unfolding_all rfl)

/-! ## C9 -/

theorem fallbackGapNames_length (l : List Json) :
    (fallbackGapNames l).length = l.length :=
  List.length_map l _

theorem fallbackGapNames_ne_nil (l : List Json) (h : l ≠ []) :
    (fallbackGapNames l).isEmpty = false := by
  cases l with
  | nil => exact absurd rfl h
  | cons a t => rfl

/-- On a timeline that is empty or splits into at least one token,
`_fallback_roadmap`'s week count matches the claim's derivation:
numeric prefix, times 4 when the string mentions "month", else 12. -/
theorem fallbackWeeks_eq_claim (timeline : String)
    (ht : timeline = "" ∨ pySplit timeline ≠ []) :
    fallbackWeeks timeline = .ok (claimDerivedWeeks timeline) := by
  by_cases he : timeline = ""
  · subst he
    with_unfolding_all rfl
  · rcases ht with h | h
    · exact absurd h he
    · unfold fallbackWeeks claimDerivedWeeks
      rw [if_pos he]
      cases hp : pySplit timeline with
      | nil => exact absurd hp h
      | cons p rest =>
        show (if pyIsdigit p = true then
            pure (if strContainsSub timeline.toLower "month" = true
              then digitsToNat p.data * 4 else digitsToNat p.data)
          else pure 12) =
          Except.ok (if pyIsdigit p = true then
            (if strContainsSub timeline.toLower "month" = true
              then digitsToNat p.data * 4 else digitsToNat p.data)
          else 12)
        by_cases hd : pyIsdigit p = true
        · rw [if_pos hd, if_pos hd]
          rfl
        · rw [if_neg hd, if_neg hd]
          rfl

theorem fallbackRoadmapObj_plans (skillGaps : List Json)
    (tr tl td : String) (weeks : Nat) :
    ((fallbackRoadmapObj skillGaps tr tl td weeks).lookupTop "roadmap").bind
      (fun x => x.lookupTop "weekly_plans") =
    some (.arr (fallbackWeeklyPlans (fallbackGapNames skillGaps) weeks)) := by
  with_unfolding_all rfl

/-- C9 counterexample: for timeline "6 months" the claim-derived weekly
plan count is 24, but the source caps the loop at `min(weeks, 12)` and
the fallback roadmap holds only 12 weekly plans. -/
theorem c9_roadmap_counterexample :
    Except.map weeklyPlansLen
      (PlannerAgent.fallbackRoadmap [sqlGapJson] "Backend Developer" "6 months"
        "2026-01-01") = .ok (some 12) ∧
    claimDerivedWeeks "6 months" = 24 ∧ (12 : Nat) ≠ 24 :=
  ⟨by with_unfolding_all rfl, by with_unfolding_all rfl, by decide⟩

/-- C9 (amended): on any timeline that is empty or has a first token,
the fallback roadmap has `min(derived_weeks, 12)` weekly plans — the
timeline-derived count capped at 12, not the derived count itself — and
for a non-empty gap list each week `i` (0-based) carries week number
`i+1` and a title focusing the gap at index `i mod len(gaps)`, so no
week is left empty when gaps are fewer than the weeks requested. -/
theorem c9_fallback_roadmap (skillGaps : List Json)
    (targetRole timeline today : String)
    (ht : timeline = "" ∨ pySplit timeline ≠ []) :
    ∃ r, PlannerAgent.fallbackRoadmap skillGaps targetRole timeline today = .ok r ∧
      weeklyPlansLen r = some (min (claimDerivedWeeks timeline) 12) ∧
      (∀ i, i < min (claimDerivedWeeks timeline) 12 → skillGaps ≠ [] →
        ∃ w, weeklyPlanAt r i = some w ∧
          w.lookupTop "week_number" = some (.num ((i + 1 : ℕ) : ℚ)) ∧
          w.lookupTop "title" = some (.str ("Week " ++ toString (i + 1) ++ ": " ++
            pyStrLite ((fallbackGapNames skillGaps).getD (i % skillGaps.length)
              (.str "General Skills"))))) := by
  have hw := fallbackWeeks_eq_claim timeline ht
  have hr : PlannerAgent.fallbackRoadmap skillGaps targetRole timeline today =
      .ok (fallbackRoadmapObj skillGaps targetRole timeline today
        (claimDerivedWeeks timeline)) := by
    unfold PlannerAgent.fallbackRoadmap
    rw [hw]
    rfl
  refine ⟨_, hr, ?_, ?_⟩
  · have hlen : (fallbackWeeklyPlans (fallbackGapNames skillGaps)
        (claimDerivedWeeks timeline)).length = min (claimDerivedWeeks timeline) 12 := by
      unfold fallbackWeeklyPlans
      rw [List.length_map, List.length_range]
    unfold weeklyPlansLen
    rw [fallbackRoadmapObj_plans]
    exact congrArg some hlen
  · intro i hi hg
    refine ⟨fallbackWeekPlan i ((fallbackGapNames skillGaps).getD
      (i % skillGaps.length) (.str "General Skills")), ?_, ?_, ?_⟩
    · unfold weeklyPlanAt
      rw [fallbackRoadmapObj_plans]
      show (fallbackWeeklyPlans (fallbackGapNames skillGaps)
        (claimDerivedWeeks timeline)).get? i = _
      unfold fallbackWeeklyPlans
      rw [List.get?_map, List.get?_range hi]
      simp only [Option.map_some', fallbackGapNames_ne_nil skillGaps hg,
        Bool.false_eq_true, if_false, fallbackGapNames_length]
    · with_unfolding_all rfl
    · with_unfolding_all rfl

/-- C9 witness: timeline "2 months" derives 8 weeks (≤ 12) and the
roadmap over the single SQL gap has 8 weekly plans with the SQL title
every week. -/
theorem c9_fallback_roadmap_witness :
    (pySplit "2 months" ≠ []) ∧
    (∃ r, PlannerAgent.fallbackRoadmap [sqlGapJson] "Backend Developer" "2 months"
        "2026-01-01" = .ok r ∧
      weeklyPlansLen r = some (min (claimDerivedWeeks "2 months") 12) ∧
      (∀ i, i < min (claimDerivedWeeks "2 months") 12 → ([sqlGapJson] : List Json) ≠ [] →
        ∃ w, weeklyPlanAt r i = some w ∧
          w.lookupTop "week_number" = some (.num ((i + 1 : ℕ) : ℚ)) ∧
          w.lookupTop "title" = some (.str ("Week " ++ toString (i + 1) ++ ": " ++
            pyStrLite ((fallbackGapNames [sqlGapJson]).getD
              (i % ([sqlGapJson] : List Json).length) (.str "General Skills")))))) :=
  ⟨by with_unfolding_all decide,
   c9_fallback_roadmap [sqlGapJson] "Backend Developer" "2 months" "2026-01-01"
     (Or.inr (by with_unfolding_all decide))⟩

/-! ## C2 -/

/-- C2: the end-to-end scenario — `run_agent("skill_gap", user_id=1,
payload={"target_role": "Backend Developer"})` over a store with skills
`[{"skill_name": "Python", "level": "advanced"}]` and the model fully
unavailable — yields an envelope with orchestrator-level status
"success"; the agent result inside carries status "fallback"; the
envelope's `result.skill_gaps` is non-empty and lists exactly the
Backend-Developer required and preferred skills outside the user's set
(including "Node.js", "SQL" and "Git"); and `readiness_percentage`
equals `round(matched/(matched+gaps)*100) = round(1/(1+9)*100) = 10`. -/
theorem c2_end_to_end :
    scenarioEnvelope.lookupTop "status" = some (.str "success") ∧
    Except.map (fun r => r.lookupTop "status")
      (SkillGapAgent.analyzeGaps none [pythonSkillRow] "Backend Developer") =
      .ok (some (.str "fallback")) ∧
    envGapNames scenarioEnvelope =
      ["Node.js", "SQL", "REST APIs", "Git", "Docker", "AWS", "Redis",
       "Microservices", "GraphQL"] ∧
    envGapNames scenarioEnvelope ≠ [] ∧
    "Node.js" ∈ envGapNames scenarioEnvelope ∧
    "SQL" ∈ envGapNames scenarioEnvelope ∧
    "Git" ∈ envGapNames scenarioEnvelope ∧
    (scenarioEnvelope.lookupTop "result").bind
        (fun r => r.lookupTop "readiness_percentage") =
      some (.num ((pyRound ((1 : ℚ) / ((1 + 9 : ℕ) : ℚ) * 100) : ℤ) : ℚ)) ∧
    (pyRound ((1 : ℚ) / ((1 + 9 : ℕ) : ℚ) * 100) : ℤ) = 10 := by
  have hnames : envGapNames scenarioEnvelope =
      ["Node.js", "SQL", "REST APIs", "Git", "Docker", "AWS", "Redis",
       "Microservices", "GraphQL"] := by
    with_unfolding_all rfl
  refine ⟨by with_unfolding_all rfl, by with_unfolding_all rfl, hnames, ?_, ?_, ?_, ?_,
    by with_unfolding_all rfl, by with_unfolding_all rfl⟩
  · rw [hnames]
    decide
  · rw [hnames]
    decide
  · rw [hnames]
    decide
  · rw [hnames]
    decide
